import Mathlib

/-!
Verification development for the AFD (time-and-attendance file) interpreter.

The program under study reads a latin-1 decoded text file, splits it into
non-blank lines, classifies each line by its 9-digit NSR and one-digit type,
parses each line with fixed-column parsers (types 1..9, with compact fallback
layouts for types 1 and 3), verifies CRC-16/ARC checksums, computes
document-level validations, and summarizes type-3 punch records into
per-person per-day journeys.

Text is modelled as `List Nat` of latin-1 code points (= byte values, each
`< 256` for text obtained by decoding bytes as latin-1).  Python `int`
results are modelled as `Int`; fallible operations return `Option`.
-/

/-- A latin-1 decoded Python string: one `Nat` code point per character. -/
abbrev Str := List Nat

/-- Python `str.isspace` on a single latin-1 code point
(ASCII 9-13, 28-31, 32, NEL 133, NBSP 160). -/
def pyIsSpace (c : Nat) : Bool :=
  (9 ≤ c && c ≤ 13) || (28 ≤ c && c ≤ 32) || c = 133 || c = 160

/-- Python `str.isdigit` on a single latin-1 code point: ASCII digits plus
the superscripts two (178), three (179) and one (185). -/
def pyIsDigit (c : Nat) : Bool :=
  (48 ≤ c && c ≤ 57) || c = 178 || c = 179 || c = 185

/-- `_is_digits(s)` = Python `s.isdigit()`: false on the empty string,
else every character passes `pyIsDigit`. -/
def pyIsDigits (s : Str) : Bool :=
  !s.isEmpty && s.all pyIsDigit

/-- An ASCII decimal digit. -/
def isAsciiDigit (c : Nat) : Bool := 48 ≤ c && c ≤ 57

/-- `_slice(line, a, b)` = Python `line[a-1:b]` for `1 ≤ a`:
the 1-based inclusive column span `a..b`. -/
def sliceAB (line : Str) (a b : Nat) : Str :=
  (line.drop (a - 1)).take (b - (a - 1))

/-- Python `str.rstrip()`: drop trailing whitespace. -/
def pyRstrip (s : Str) : Str :=
  (s.reverse.dropWhile pyIsSpace).reverse

/-- Python `str.strip()`: drop leading and trailing whitespace. -/
def pyStrip (s : Str) : Str :=
  pyRstrip (s.dropWhile pyIsSpace)

/-- Python `str.upper()` of one latin-1 code point (may expand, e.g. sharp s
maps to a two-character string; micro sign and y-diaeresis leave latin-1). -/
def pyUpperChar (c : Nat) : List Nat :=
  if 97 ≤ c ∧ c ≤ 122 then [c - 32]
  else if c = 181 then [924]
  else if c = 223 then [83, 83]
  else if c = 255 then [376]
  else if 224 ≤ c ∧ c ≤ 254 ∧ c ≠ 247 then [c - 32]
  else [c]

/-- Python `str.upper()`. -/
def pyUpper (s : Str) : Str := s.flatMap pyUpperChar

/-- `.encode("latin-1", errors="replace")` of one character: code points
below 256 are their own byte, anything else becomes a question mark. -/
def encChar (c : Nat) : Nat := if c < 256 then c else 63

/-- Latin-1 encoding of a string, one byte per character. -/
def encLatin1 (s : Str) : List Nat := s.map encChar

/-- Digits-with-underscores body of a Python integer literal:
`digit (underscore? digit)*`, accumulating the decimal value. -/
def pyDigitsCore : List Nat → Nat → Option Nat
  | [], acc => some acc
  | 95 :: c :: rest, acc =>
      if isAsciiDigit c then pyDigitsCore rest (acc * 10 + (c - 48)) else none
  | [95], _ => none
  | c :: rest, acc =>
      if isAsciiDigit c then pyDigitsCore rest (acc * 10 + (c - 48)) else none

/-- Body of `int(s)` after whitespace stripping: optional sign, then digits
(with optional single underscores between digits). -/
def pyIntBody : List Nat → Option Int
  | 43 :: rest =>
      match rest with
      | c :: _ => if isAsciiDigit c then (pyDigitsCore rest 0).map Int.ofNat else none
      | [] => none
  | 45 :: rest =>
      match rest with
      | c :: _ => if isAsciiDigit c then (pyDigitsCore rest 0).map (fun n => -(n : Int)) else none
      | [] => none
  | s =>
      match s with
      | c :: _ => if isAsciiDigit c then (pyDigitsCore s 0).map Int.ofNat else none
      | [] => none

/-- Python `int(s)` on a latin-1 string: strip whitespace, optional sign,
ASCII decimal digits (underscores allowed between digits); `none` models
`ValueError`. -/
def parsePyInt (s : Str) : Option Int := pyIntBody (pyStrip s)

-- ===============================
-- CRC-16/IBM (ARC)
-- ===============================

/-- One bit-iteration of the CRC-16/ARC loop body: right-shift, XOR with
0xA001 when the low bit was set. -/
def crcStep (crc : Nat) : Nat :=
  if crc % 2 = 1 then (crc / 2) ^^^ 0xA001 else crc / 2

/-- The inner `for _ in range(8)` loop of `crc16_ibm_arc`. -/
def crcInner : Nat → Nat → Nat
  | 0, crc => crc
  | k + 1, crc => crcInner k (crcStep crc)

/-- The outer per-byte loop of `crc16_ibm_arc`: XOR the byte into the
register, run 8 bit-iterations, continue with the rest. -/
def crcOuter : Nat → List Nat → Nat
  | crc, [] => crc
  | crc, b :: rest => crcOuter (crcInner 8 (crc ^^^ b)) rest

/-- `crc16_ibm_arc(data)`: initial register 0, per-byte loop, final value
masked to 16 bits. -/
def crc16_ibm_arc (data : List Nat) : Nat :=
  crcOuter 0 data &&& 0xFFFF

/-- Uppercase hexadecimal digit character of a value below 16. -/
def hexDigitChar (n : Nat) : Nat := if n < 10 then 48 + n else 55 + n

/-- Python `f"{x:04X}"` for `x < 0x10000`: exactly four uppercase
hexadecimal digit characters, zero padded. -/
def hex4 (x : Nat) : Str :=
  [hexDigitChar (x / 4096 % 16), hexDigitChar (x / 256 % 16),
   hexDigitChar (x / 16 % 16), hexDigitChar (x % 16)]

/-- `_crc16_hex4_for_line(line, (a, b))`: CRC over the line with the
checksum field's own 1-based inclusive span `a..b` excised, latin-1
encoded, rendered as four uppercase hex digits. -/
def crc16Hex4ForLine (line : Str) (a b : Nat) : Str :=
  hex4 (crc16_ibm_arc (encLatin1 (sliceAB line 1 (a - 1) ++ sliceAB line (b + 1) line.length)))

example : crc16_ibm_arc [48] = 0x1400 := by decide
example : pyIsDigits [49, 178] = true := by decide
example : parsePyInt [49, 178] = none := by decide
example : parsePyInt [32, 43, 49, 95, 50] = some 12 := by decide
example : pyStrip [32, 65, 160] = [65] := by decide

-- ===============================
-- Date/time helpers
-- ===============================

/-- `_ddmmaaaa_to_iso(d)`: an 8-digit `DDMMYYYY` string becomes
`YYYY-MM-DD`; anything else is `None`.  (Digit test is Python `isdigit`.) -/
def ddmmaaaaToIso (d : Str) : Option Str :=
  if d.length = 8 ∧ pyIsDigits d then
    some ((d.drop 4).take 4 ++ 45 :: ((d.drop 2).take 2 ++ 45 :: d.take 2))
  else none

/-- `_hhmm_to_hhmm(h)`: a 4-digit `HHMM` string becomes `HH:MM`. -/
def hhmmToHhmm (h : Str) : Option Str :=
  if h.length = 4 ∧ pyIsDigits h then
    some (h.take 2 ++ 58 :: (h.drop 2).take 2)
  else none

/-- `_is_iso_dh(s)`: full match of `\d{4}-\d{2}-\d{2}T\d{2}:\d{2}:00[+-]\d{4}`
(in the `re` module `\d` on latin-1 text is exactly the ASCII digits). -/
def isIsoDh (s : Str) : Bool :=
  s.length = 24 &&
  ([0, 1, 2, 3, 5, 6, 8, 9, 11, 12, 14, 15, 20, 21, 22, 23].all
    (fun i => isAsciiDigit (s.getD i 0))) &&
  s.getD 4 0 = 45 && s.getD 7 0 = 45 && s.getD 10 0 = 84 &&
  s.getD 13 0 = 58 && s.getD 16 0 = 58 && s.getD 17 0 = 48 &&
  s.getD 18 0 = 48 && (s.getD 19 0 = 43 || s.getD 19 0 = 45)

/-- `f"{iso}T{hh}:00-0300"`: the timestamp synthesized by the compact
parsers from an ISO date and an `HH:MM` time. -/
def synthDh (iso hh : Str) : Str :=
  iso ++ 84 :: hh ++ [58, 48, 48, 45, 48, 51, 48, 48]

-- ===============================
-- Record models
-- ===============================

/-- `Registro1` (header, type 1). -/
structure Registro1 where
  nsr : Int
  tipo : Int
  id_empregador_tipo : Option Str
  id_empregador : Option Str
  cno_caepf : Option Str
  razao_social : Option Str
  numero_fabricacao_processo_ou_inpi : Option Str
  data_inicio : Option Str
  data_fim : Option Str
  data_hora_geracao : Option Str
  versao_layout : Option Str
  id_fabricante_tipo : Option Str
  id_fabricante : Option Str
  modelo_rep_c : Option Str
  crc16 : Option Str
  crc_ok : Option Bool
  deriving DecidableEq

/-- `Registro2` (employer change, type 2). -/
structure Registro2 where
  nsr : Int
  tipo : Int
  dh_gravacao : Str
  cpf_responsavel : Str
  id_empregador_tipo : Str
  id_empregador : Str
  cno_caepf : Str
  razao_social : Str
  local_prestacao : Str
  crc16 : Str
  crc_ok : Bool
  deriving DecidableEq

/-- The format tag of a parsed type-3 record. -/
inductive Formato where
  | oficial
  | compacto
  deriving DecidableEq

/-- `Registro3` (punch, type 3): the type discriminator is kept as the
literal one-character string. -/
structure Registro3 where
  nsr : Int
  tipo : Str
  dh_marcacao : Str
  cpf : Str
  crc16 : Option Str
  crc_ok : Option Bool
  formato : Formato
  deriving DecidableEq

/-- `Registro4` (adjustment, type 4). -/
structure Registro4 where
  nsr : Int
  tipo : Int
  dh_antes : Str
  dh_ajustada : Str
  cpf_responsavel : Str
  crc16 : Str
  crc_ok : Bool
  deriving DecidableEq

/-- `Registro5` (employee master, type 5). -/
structure Registro5 where
  nsr : Int
  tipo : Int
  dh_gravacao : Str
  operacao : Str
  cpf : Str
  nome : Str
  demais_dados : Str
  cpf_responsavel : Str
  crc16 : Str
  crc_ok : Bool
  deriving DecidableEq

/-- `Registro6` (event, type 6). -/
structure Registro6 where
  nsr : Int
  tipo : Int
  dh_gravacao : Str
  tipo_evento : Str
  deriving DecidableEq

/-- `Registro7` (online mark, type 7). -/
structure Registro7 where
  nsr : Int
  tipo : Str
  dh_marcacao : Str
  cpf : Str
  dh_gravacao : Str
  coletor_id : Str
  online_offline : Str
  hash256 : Str
  deriving DecidableEq

/-- `Registro9` (trailer, type 9). -/
structure Registro9 where
  nsr : Int
  qtd_tipo2 : Int
  qtd_tipo3 : Int
  qtd_tipo4 : Int
  qtd_tipo5 : Int
  qtd_tipo6 : Int
  qtd_tipo7 : Int
  tipo : Int
  deriving DecidableEq

-- ===============================
-- Parsers (official layouts)
-- ===============================

/-- `parse_registro1_oficial`: minimum length 302, checksum at 299-302. -/
def parse_registro1_oficial (line : Str) : Option Registro1 :=
  if line.length < 302 then none else
  match parsePyInt (sliceAB line 1 9), parsePyInt (sliceAB line 10 10) with
  | some nsr, some tipo =>
      let crc := pyUpper (sliceAB line 299 302)
      some {
        nsr := nsr, tipo := tipo,
        id_empregador_tipo := some (sliceAB line 11 11),
        id_empregador := some (pyStrip (sliceAB line 12 25)),
        cno_caepf := some (pyStrip (sliceAB line 26 39)),
        razao_social := some (pyRstrip (sliceAB line 40 189)),
        numero_fabricacao_processo_ou_inpi := some (pyStrip (sliceAB line 190 206)),
        data_inicio := some (sliceAB line 207 216),
        data_fim := some (sliceAB line 217 226),
        data_hora_geracao := some (sliceAB line 227 250),
        versao_layout := some (sliceAB line 251 253),
        id_fabricante_tipo := some (sliceAB line 254 254),
        id_fabricante := some (pyStrip (sliceAB line 255 268)),
        modelo_rep_c := some (pyRstrip (sliceAB line 269 298)),
        crc16 := some crc,
        crc_ok := some (decide (crc = crc16Hex4ForLine line 299 302)) }
  | _, _ => none

/-- `parse_registro2`: minimum length 331, checksum at 328-331. -/
def parse_registro2 (line : Str) : Option Registro2 :=
  if line.length < 331 then none else
  match parsePyInt (sliceAB line 1 9), parsePyInt (sliceAB line 10 10) with
  | some nsr, some tipo =>
      let crc := pyUpper (sliceAB line 328 331)
      some {
        nsr := nsr, tipo := tipo,
        dh_gravacao := sliceAB line 11 34,
        cpf_responsavel := pyStrip (sliceAB line 35 48),
        id_empregador_tipo := sliceAB line 49 49,
        id_empregador := pyStrip (sliceAB line 50 63),
        cno_caepf := pyStrip (sliceAB line 64 77),
        razao_social := pyRstrip (sliceAB line 78 227),
        local_prestacao := pyRstrip (sliceAB line 228 327),
        crc16 := crc,
        crc_ok := decide (crc = crc16Hex4ForLine line 328 331) }
  | _, _ => none

/-- The checksum comparison of an official type-3 line: the uppercased
literal field at columns 47-50 against the computed hex digits. -/
def crcOk3 (line : Str) : Bool :=
  decide (pyUpper (sliceAB line 47 50) = crc16Hex4ForLine line 47 50)

/-- `parse_registro3_oficial`: minimum length 50, timestamp 11-34 must
match the ISO pattern, tax ID 35-46, checksum 47-50. -/
def parse_registro3_oficial (line : Str) : Option Registro3 :=
  if line.length < 50 then none else
  match parsePyInt (sliceAB line 1 9) with
  | some nsr =>
      let dh := sliceAB line 11 34
      if isIsoDh dh then
        some {
          nsr := nsr, tipo := sliceAB line 10 10,
          dh_marcacao := dh,
          cpf := pyStrip (sliceAB line 35 46),
          crc16 := some (pyUpper (sliceAB line 47 50)),
          crc_ok := some (crcOk3 line),
          formato := .oficial }
      else none
  | none => none

/-- `parse_registro4`: minimum length 73, checksum at 70-73. -/
def parse_registro4 (line : Str) : Option Registro4 :=
  if line.length < 73 then none else
  match parsePyInt (sliceAB line 1 9), parsePyInt (sliceAB line 10 10) with
  | some nsr, some tipo =>
      let crc := pyUpper (sliceAB line 70 73)
      some {
        nsr := nsr, tipo := tipo,
        dh_antes := sliceAB line 11 34,
        dh_ajustada := sliceAB line 35 58,
        cpf_responsavel := pyStrip (sliceAB line 59 69),
        crc16 := crc,
        crc_ok := decide (crc = crc16Hex4ForLine line 70 73) }
  | _, _ => none

/-- `parse_registro5`: minimum length 118, checksum at 115-118. -/
def parse_registro5 (line : Str) : Option Registro5 :=
  if line.length < 118 then none else
  match parsePyInt (sliceAB line 1 9), parsePyInt (sliceAB line 10 10) with
  | some nsr, some tipo =>
      let crc := pyUpper (sliceAB line 115 118)
      some {
        nsr := nsr, tipo := tipo,
        dh_gravacao := sliceAB line 11 34,
        operacao := sliceAB line 35 35,
        cpf := pyStrip (sliceAB line 36 47),
        nome := pyRstrip (sliceAB line 48 99),
        demais_dados := pyRstrip (sliceAB line 100 103),
        cpf_responsavel := pyStrip (sliceAB line 104 114),
        crc16 := crc,
        crc_ok := decide (crc = crc16Hex4ForLine line 115 118) }
  | _, _ => none

/-- `parse_registro6`: minimum length 36, no checksum. -/
def parse_registro6 (line : Str) : Option Registro6 :=
  if line.length < 36 then none else
  match parsePyInt (sliceAB line 1 9), parsePyInt (sliceAB line 10 10) with
  | some nsr, some tipo =>
      some {
        nsr := nsr, tipo := tipo,
        dh_gravacao := sliceAB line 11 34,
        tipo_evento := sliceAB line 35 36 }
  | _, _ => none

/-- `parse_registro7`: minimum length 137, no checksum verification. -/
def parse_registro7 (line : Str) : Option Registro7 :=
  if line.length < 137 then none else
  match parsePyInt (sliceAB line 1 9) with
  | some nsr =>
      some {
        nsr := nsr, tipo := sliceAB line 10 10,
        dh_marcacao := sliceAB line 11 34,
        cpf := pyStrip (sliceAB line 35 46),
        dh_gravacao := sliceAB line 47 70,
        coletor_id := sliceAB line 71 72,
        online_offline := sliceAB line 73 73,
        hash256 := pyStrip (sliceAB line 74 137) }
  | none => none

/-- `parse_registro9`: minimum length 64, six 9-digit counts and the
trailing literal type digit. -/
def parse_registro9 (line : Str) : Option Registro9 :=
  if line.length < 64 then none else
  match parsePyInt (sliceAB line 1 9), parsePyInt (sliceAB line 10 18),
        parsePyInt (sliceAB line 19 27), parsePyInt (sliceAB line 28 36),
        parsePyInt (sliceAB line 37 45), parsePyInt (sliceAB line 46 54),
        parsePyInt (sliceAB line 55 63), parsePyInt (sliceAB line 64 64) with
  | some nsr, some q2, some q3, some q4, some q5, some q6, some q7, some t9 =>
      some {
        nsr := nsr, qtd_tipo2 := q2, qtd_tipo3 := q3, qtd_tipo4 := q4,
        qtd_tipo5 := q5, qtd_tipo6 := q6, qtd_tipo7 := q7, tipo := t9 }
  | _, _, _, _, _, _, _, _ => none

-- ===============================
-- Parsers (compact fallback layouts)
-- ===============================

/-- `parse_registro1_compacto`: minimum length 38; the last 28 characters
must be digits: three `DDMMYYYY` dates and one `HHMM` time. -/
def parse_registro1_compacto (line : Str) : Option Registro1 :=
  if line.length < 38 then none else
  match parsePyInt (line.take 9), parsePyInt [line.getD 9 0] with
  | some nsr, some tipo =>
      let trail := line.drop (line.length - 28)
      if pyIsDigits trail then
        let di_iso := ddmmaaaaToIso (trail.take 8)
        let df_iso := ddmmaaaaToIso ((trail.drop 8).take 8)
        let dg_iso := ddmmaaaaToIso ((trail.drop 16).take 8)
        let hg := hhmmToHhmm ((trail.drop 24).take 4)
        let dh_ger := match dg_iso, hg with
          | some x, some y => if x.isEmpty || y.isEmpty then none else some (synthDh x y)
          | _, _ => none
        some {
          nsr := nsr, tipo := tipo,
          id_empregador_tipo := none, id_empregador := none, cno_caepf := none,
          razao_social := none, numero_fabricacao_processo_ou_inpi := none,
          data_inicio := di_iso, data_fim := df_iso, data_hora_geracao := dh_ger,
          versao_layout := none, id_fabricante_tipo := none, id_fabricante := none,
          modelo_rep_c := none, crc16 := none, crc_ok := none }
      else none
  | _, _ => none

/-- `parse_registro3_compacto`: minimum length 34, layout
`NSR(9) + type(1) + DDMMYYYY(8) + HHMM(4) + tax ID(12)`; timestamp
synthesized with a fixed `-0300` offset; no checksum fields. -/
def parse_registro3_compacto (line : Str) : Option Registro3 :=
  if line.length < 34 then none else
  match parsePyInt (line.take 9) with
  | some nsr =>
      let d := (line.drop 10).take 8
      let h := (line.drop 18).take 4
      let cpf := pyStrip ((line.drop 22).take 12)
      match ddmmaaaaToIso d, hhmmToHhmm h with
      | some di, some hh =>
          if di.isEmpty || hh.isEmpty then none else
          some {
            nsr := nsr, tipo := [line.getD 9 0],
            dh_marcacao := synthDh di hh,
            cpf := cpf,
            crc16 := none, crc_ok := none,
            formato := .compacto }
      | _, _ => none
  | none => none

-- ===============================
-- Document interpreter
-- ===============================

/-- `s.replace("\r\n", "\n")`: leftmost non-overlapping CRLF to LF. -/
def replaceCRLF : Str → Str
  | [] => []
  | 13 :: 10 :: rest => 10 :: replaceCRLF rest
  | c :: rest => c :: replaceCRLF rest

/-- `s.split("\n")`. -/
def splitNL : Str → List Str
  | [] => [[]]
  | 10 :: rest => [] :: splitNL rest
  | c :: rest =>
      match splitNL rest with
      | [] => [[c]]
      | l :: ls => (c :: l) :: ls

/-- `_split_lines`: normalize CRLF, split on LF, keep lines that are
non-blank (truthy after `strip()`). -/
def splitLines (s : Str) : List Str :=
  (splitNL (replaceCRLF s)).filter (fun ln => ln.any (fun c => !pyIsSpace c))

/-- A line-scoped diagnostic entry of the interpreter's `erros` list. -/
inductive Erro where
  | linhaInvalida (ln : Str)
  | tipoDesconhecido (tipo : Nat)
  | falhaParse (nsr : Str) (tipo : Nat)
  deriving DecidableEq

/-- An uncaught exception terminating `interpretar_afd`. -/
inductive PyErr where
  | arquivoVazio
  | intConversion
  | nadaInterpretado (primeiros : List Erro)
  deriving DecidableEq

/-- The classification pass: lines shorter than 10 characters or whose
first 9 characters are not `isdigit` become `erros` entries and are
skipped; otherwise `int(ln[:9])` is taken (its `ValueError` — reachable
because `isdigit` accepts superscript digits that `int` rejects — is not
caught and aborts the whole call). -/
def classify : List Str → Except PyErr (List (Int × Str) × List Erro)
  | [] => .ok ([], [])
  | ln :: rest =>
      if ln.length < 10 ∨ ¬ pyIsDigits (ln.take 9) then
        match classify rest with
        | .ok (rs, es) => .ok (rs, .linhaInvalida ln :: es)
        | .error e => .error e
      else
        match parsePyInt (ln.take 9) with
        | some n =>
            match classify rest with
            | .ok (rs, es) => .ok ((n, ln) :: rs, es)
            | .error e => .error e
        | none => .error .intConversion

/-- The interpreter's accumulation state over the classified lines. -/
structure St where
  header : Option Registro1 := none
  reg2 : List Registro2 := []
  reg3 : List Registro3 := []
  reg4 : List Registro4 := []
  reg5 : List Registro5 := []
  reg6 : List Registro6 := []
  reg7 : List Registro7 := []
  trailer : Option Registro9 := none
  crc1 : List Bool := []
  crc2 : List Bool := []
  crc3 : List Bool := []
  crc4 : List Bool := []
  crc5 : List Bool := []
  erros : List Erro := []
  deriving DecidableEq

/-- One iteration of the interpreter's dispatch loop over a classified
`(nsr, line)` pair: branch on the 10th character, run the type's parser
(official first, compact fallback for types 1 and 3), route the record,
and turn any parse failure into a line-scoped `erros` entry. -/
def step (st : St) (reg : Int × Str) : St :=
  let line := reg.2
  let tipo := line.getD 9 0
  if tipo = 49 then
    match (parse_registro1_oficial line).orElse (fun _ => parse_registro1_compacto line) with
    | some r =>
        { st with
          header := some r
          crc1 := match r.crc_ok with | some b => st.crc1 ++ [b] | none => st.crc1 }
    | none => { st with erros := st.erros ++ [.falhaParse (line.take 9) tipo] }
  else if tipo = 50 then
    match parse_registro2 line with
    | some r => { st with reg2 := st.reg2 ++ [r], crc2 := st.crc2 ++ [r.crc_ok] }
    | none => { st with erros := st.erros ++ [.falhaParse (line.take 9) tipo] }
  else if tipo = 51 then
    match (parse_registro3_oficial line).orElse (fun _ => parse_registro3_compacto line) with
    | some r =>
        { st with
          reg3 := st.reg3 ++ [r]
          crc3 := match r.crc_ok with | some b => st.crc3 ++ [b] | none => st.crc3 }
    | none => { st with erros := st.erros ++ [.falhaParse (line.take 9) tipo] }
  else if tipo = 52 then
    match parse_registro4 line with
    | some r => { st with reg4 := st.reg4 ++ [r], crc4 := st.crc4 ++ [r.crc_ok] }
    | none => { st with erros := st.erros ++ [.falhaParse (line.take 9) tipo] }
  else if tipo = 53 then
    match parse_registro5 line with
    | some r => { st with reg5 := st.reg5 ++ [r], crc5 := st.crc5 ++ [r.crc_ok] }
    | none => { st with erros := st.erros ++ [.falhaParse (line.take 9) tipo] }
  else if tipo = 54 then
    match parse_registro6 line with
    | some r => { st with reg6 := st.reg6 ++ [r] }
    | none => { st with erros := st.erros ++ [.falhaParse (line.take 9) tipo] }
  else if tipo = 55 then
    match parse_registro7 line with
    | some r => { st with reg7 := st.reg7 ++ [r] }
    | none => { st with erros := st.erros ++ [.falhaParse (line.take 9) tipo] }
  else if tipo = 57 then
    match parse_registro9 line with
    | some r => { st with trailer := some r }
    | none => { st with erros := st.erros ++ [.falhaParse (line.take 9) tipo] }
  else
    { st with erros := st.erros ++ [.tipoDesconhecido tipo] }

/-- The interpreted document returned by `interpretar_afd` (buckets,
header, trailer and the `validacoes` block). -/
structure Doc where
  header : Option Registro1
  reg2 : List Registro2
  reg3 : List Registro3
  reg4 : List Registro4
  reg5 : List Registro5
  reg6 : List Registro6
  reg7 : List Registro7
  trailer : Option Registro9
  ordem_nsr_ok : Bool
  contagens_ok : Bool
  crc_ok_tipo1 : Option Bool
  crc_ok_tipo2 : Option Bool
  crc_ok_tipo3 : Option Bool
  crc_ok_tipo4 : Option Bool
  crc_ok_tipo5 : Option Bool
  erros : List Erro
  deriving DecidableEq

/-- `all(v) if v else None`: the tri-state aggregate of a checksum list. -/
def triState (v : List Bool) : Option Bool :=
  if v.isEmpty then none else some (v.all id)

/-- The state after folding the dispatch loop over the classified lines,
starting from the phase-one `erros`. -/
def foldState (registros : List (Int × Str)) (erros1 : List Erro) : St :=
  registros.foldl step { erros := erros1 }

/-- `ordem_nsr_ok`: the NSR list equals its sorted copy. -/
def ordemOk (registros : List (Int × Str)) : Bool :=
  decide (registros.map Prod.fst =
    List.insertionSort (· ≤ ·) (registros.map Prod.fst))

/-- `contagens_ok`: vacuously true without a trailer; with one, its six
counts must equal the six bucket lengths and its type field must be 9. -/
def contagensOk (st : St) : Bool :=
  match st.trailer with
  | none => true
  | some t =>
      decide (t.qtd_tipo2 = (st.reg2.length : Int)) &&
      decide (t.qtd_tipo3 = (st.reg3.length : Int)) &&
      decide (t.qtd_tipo4 = (st.reg4.length : Int)) &&
      decide (t.qtd_tipo5 = (st.reg5.length : Int)) &&
      decide (t.qtd_tipo6 = (st.reg6.length : Int)) &&
      decide (t.qtd_tipo7 = (st.reg7.length : Int)) &&
      decide (t.tipo = 9)

/-- The guard of the "nothing interpretable" hard failure: every bucket
empty and neither header nor trailer present. -/
def nothingParsed (st : St) : Bool :=
  st.reg2.isEmpty && st.reg3.isEmpty && st.reg4.isEmpty && st.reg5.isEmpty &&
  st.reg6.isEmpty && st.reg7.isEmpty && st.header.isNone && st.trailer.isNone

/-- The document emitted on success (`erros` capped at 200 entries). -/
def buildDoc (registros : List (Int × Str)) (erros1 : List Erro) : Doc :=
  let st := foldState registros erros1
  { header := st.header
    reg2 := st.reg2
    reg3 := st.reg3
    reg4 := st.reg4
    reg5 := st.reg5
    reg6 := st.reg6
    reg7 := st.reg7
    trailer := st.trailer
    ordem_nsr_ok := ordemOk registros
    contagens_ok := contagensOk st
    crc_ok_tipo1 := triState st.crc1
    crc_ok_tipo2 := triState st.crc2
    crc_ok_tipo3 := triState st.crc3
    crc_ok_tipo4 := triState st.crc4
    crc_ok_tipo5 := triState st.crc5
    erros := st.erros.take 200 }

/-- `interpretar_afd`: split and classify the lines, check NSR order
(`l == sorted(l)`), fold the dispatch loop, reconcile the trailer counts,
fail hard when nothing at all was interpreted, else emit the document. -/
def interpretar_afd (text : Str) : Except PyErr Doc :=
  let lines := splitLines text
  if lines.isEmpty then .error .arquivoVazio else
  match classify lines with
  | .error e => .error e
  | .ok (registros, erros1) =>
      if nothingParsed (foldState registros erros1)
      then .error (.nadaInterpretado ((foldState registros erros1).erros.take 3))
      else .ok (buildDoc registros erros1)

-- ===============================
-- Journey summarizer
-- ===============================

/-- Proleptic Gregorian leap year, as in Python's `datetime`. -/
def isLeapYear (y : Nat) : Bool :=
  (y % 4 = 0 && y % 100 ≠ 0) || y % 400 = 0

/-- Days in a month of a given year. -/
def daysInMonth (y m : Nat) : Nat :=
  if m = 2 then (if isLeapYear y then 29 else 28)
  else if m = 4 ∨ m = 6 ∨ m = 9 ∨ m = 11 then 30
  else 31

/-- Days in the months of `y` strictly before month `m`. -/
def daysBeforeMonth (y m : Nat) : Nat :=
  (List.range (m - 1)).foldl (fun acc i => acc + daysInMonth y (i + 1)) 0

/-- Rata-die style day number of a proleptic Gregorian date (day 0 is
January 1 of year 1). -/
def epochDays (y m d : Nat) : Nat :=
  365 * (y - 1) + (y - 1) / 4 - (y - 1) / 100 + (y - 1) / 400 +
    daysBeforeMonth y m + (d - 1)

/-- An aware `datetime` as produced by
`datetime.strptime(s, "%Y-%m-%dT%H:%M:00%z")`: local calendar fields plus
the UTC offset in minutes. -/
structure PyDateTime where
  year : Nat
  month : Nat
  day : Nat
  hour : Nat
  minute : Nat
  offMin : Int
  deriving DecidableEq

/-- The absolute instant of an aware datetime, in minutes (UTC
time = local time minus offset); aware datetimes compare and subtract
through this value. -/
def absMin (t : PyDateTime) : Int :=
  1440 * (epochDays t.year t.month t.day : Int) + 60 * (t.hour : Int) +
    (t.minute : Int) - t.offMin

/-- `_parse_iso_dh(s)` = `datetime.strptime(s, "%Y-%m-%dT%H:%M:00%z")`,
modelled on the fixed-width `YYYY-MM-DDTHH:MM:00[+-]HHMM` shape that both
parsers emit: the literal separators and `:00` seconds must be in place,
every varying position must hold an ASCII digit (`%Y`, `%m`, `%d`, `%H`,
`%M`, `%z` match only decimal digits), the calendar fields must form a
real date (month 1-12, day within the month, year at least 1) and time of
day, and the UTC offset must be strictly shorter than a day; otherwise
`ValueError`, modelled as `none`. -/
def parseIsoDh (s : Str) : Option PyDateTime :=
  match s with
  | [y1, y2, y3, y4, 45, mo1, mo2, 45, d1, d2, 84, hh1, hh2, 58, mi1, mi2,
     58, 48, 48, sg, o1, o2, o3, o4] =>
      if ([y1, y2, y3, y4, mo1, mo2, d1, d2, hh1, hh2, mi1, mi2,
           o1, o2, o3, o4].all isAsciiDigit && (sg == 43 || sg == 45)) then
        let y := 1000 * (y1 - 48) + 100 * (y2 - 48) + 10 * (y3 - 48) + (y4 - 48)
        let mo := 10 * (mo1 - 48) + (mo2 - 48)
        let d := 10 * (d1 - 48) + (d2 - 48)
        let h := 10 * (hh1 - 48) + (hh2 - 48)
        let mi := 10 * (mi1 - 48) + (mi2 - 48)
        let off := 60 * (10 * (o1 - 48) + (o2 - 48)) + (10 * (o3 - 48) + (o4 - 48))
        if 1 ≤ y ∧ 1 ≤ mo ∧ mo ≤ 12 ∧ 1 ≤ d ∧ d ≤ daysInMonth y mo ∧
           h ≤ 23 ∧ mi ≤ 59 ∧ off ≤ 1439 then
          some { year := y, month := mo, day := d, hour := h, minute := mi,
                 offMin := if sg = 45 then -(off : Int) else (off : Int) }
        else none
      else none
  | _ => none

/-- `_sum_pairs(times)`: pair consecutive elements, a trailing odd element
gets no exit; a pair adds `exit - entry` (as timedelta seconds) to the
total only when `exit > entry` as instants. -/
def sumPairsDT : List PyDateTime → Int × List (PyDateTime × Option PyDateTime)
  | [] => (0, [])
  | [e] => (0, [(e, none)])
  | e :: s :: rest =>
      let tp := sumPairsDT rest
      ((if absMin s > absMin e then 60 * (absMin s - absMin e) else 0) + tp.1,
       (e, some s) :: tp.2)

/-- Big-endian decimal digit characters (fuel-driven so that it reduces
by evaluation; the fuel equals the number itself, which suffices). -/
def decDigitsFuel : Nat → Nat → List Nat
  | 0, n => [48 + n % 10]
  | fuel + 1, n => if n < 10 then [48 + n] else decDigitsFuel fuel (n / 10) ++ [48 + n % 10]

/-- Decimal digit characters of a number. -/
def decDigits (n : Nat) : List Nat := decDigitsFuel n n

/-- Python `f"{n:02d}"` for a nonnegative value. -/
def pad2 (n : Nat) : Str := if n < 10 then [48, 48 + n] else decDigits n

/-- Python `f"{n:04d}"` for a nonnegative value. -/
def pad4 (n : Nat) : Str :=
  if n < 10 then 48 :: 48 :: 48 :: [48 + n]
  else if n < 100 then 48 :: 48 :: decDigits n
  else if n < 1000 then 48 :: decDigits n
  else decDigits n

/-- `date.isoformat()` of the local calendar date of a datetime. -/
def dateIso (t : PyDateTime) : Str :=
  pad4 t.year ++ 45 :: pad2 t.month ++ 45 :: pad2 t.day

/-- `_format_dh(dt)` = `dt.strftime("%Y-%m-%d %H:%M")` on the local
fields. -/
def formatDh (t : PyDateTime) : Str :=
  pad4 t.year ++ 45 :: pad2 t.month ++ 45 :: pad2 t.day ++ 32 ::
    pad2 t.hour ++ 58 :: pad2 t.minute

/-- `_format_td_hhmm(td)`: clamp negatives to zero, then
`HH:MM` by integer floor division of the total seconds. -/
def formatTdHhmm (seconds : Int) : Str :=
  let total : Nat := seconds.toNat
  pad2 (total / 3600) ++ 58 :: pad2 (total % 3600 / 60)

/-- A row of the exported punches table (`marcacoes` CSV): every field is
the literal string the CSV holds. -/
structure MarcacaoRow where
  nsr : Str
  dh_marcacao : Str
  cpf : Str
  crc16 : Str
  crc_ok : Str
  formato : Str
  deriving DecidableEq

/-- The key and parsed timestamp a row contributes to the grouping, if
any: rows with a blank tax ID or timestamp, or whose timestamp fails
strict parsing, are silently skipped. -/
def rowKeyVal (row : MarcacaoRow) : Option ((Str × Str) × PyDateTime) :=
  let cpf := pyStrip row.cpf
  let dh := pyStrip row.dh_marcacao
  if cpf.isEmpty || dh.isEmpty then none
  else
    match parseIsoDh dh with
    | some dt => some ((cpf, dateIso dt), dt)
    | none => none

/-- Append `v` to the entry of key `k`, preserving Python dict insertion
order (new keys go to the back). -/
def upsert (bs : List ((Str × Str) × List PyDateTime)) (k : Str × Str)
    (v : PyDateTime) : List ((Str × Str) × List PyDateTime) :=
  match bs with
  | [] => [(k, [v])]
  | (k', vs) :: rest =>
      if k' = k then (k', vs ++ [v]) :: rest else (k', vs) :: upsert rest k v

/-- The `buckets` grouping of `gerar_jornadas_por_cpf`: timestamps per
(tax ID, local date), in insertion order. -/
def buildBuckets (rows : List MarcacaoRow) : List ((Str × Str) × List PyDateTime) :=
  rows.foldl
    (fun bs row =>
      match rowKeyVal row with
      | some kv => upsert bs kv.1 kv.2
      | none => bs)
    []

/-- One output row of the journey summary. -/
structure JRow where
  cpf : Str
  data : Str
  pares : List (Str × Str)
  horas_trabalhadas : Str
  horas_extras_maior_10h : Str
  horas_extras_maior_6h : Str
  deriving DecidableEq

/-- Instant-wise comparison used to sort a day's timestamps. -/
def dtLe (a b : PyDateTime) : Prop := absMin a ≤ absMin b

instance : DecidableRel dtLe := fun a b => inferInstanceAs (Decidable (absMin a ≤ absMin b))

/-- Build the journey row of one (tax ID, local date) group: sort the
timestamps, pair them, render up to `nPares` pairs, compute the total and
the two independent overtime figures (thresholds 10h and 6h). -/
def renderGroup (nPares : Nat) (k : Str × Str) (times : List PyDateTime) : JRow :=
  let sortedT := List.insertionSort dtLe times
  let tp := sumPairsDT sortedT
  let total := tp.1
  let pares := tp.2
  let extra10 : Int := if total > 36000 then total - 36000 else 0
  let extra6 : Int := if total > 21600 then total - 21600 else 0
  { cpf := k.1
    data := k.2
    pares := (List.range nPares).map (fun i =>
      match pares[i]? with
      | some (e, some s) => (formatDh e, formatDh s)
      | some (e, none) => (formatDh e, [])
      | none => ([], []))
    horas_trabalhadas := formatTdHhmm total
    horas_extras_maior_10h := formatTdHhmm extra10
    horas_extras_maior_6h := formatTdHhmm extra6 }

/-- Python string comparison `a < b`: lexicographic on code points. -/
def strLtB : Str → Str → Bool
  | [], [] => false
  | [], _ :: _ => true
  | _ :: _, [] => false
  | a :: as_, b :: bs => if a < b then true else if b < a then false else strLtB as_ bs

/-- Non-strict lexicographic comparison of string pairs, as Python's
tuple comparison used by the final sort key. -/
def pairLeB (a b : Str × Str) : Bool :=
  strLtB a.1 b.1 || (a.1 == b.1 && (strLtB a.2 b.2 || a.2 == b.2))

/-- The caller-selected ordering mode of the summary. -/
inductive OrdenarPor where
  | data_cpf
  | cpf_data
  deriving DecidableEq

/-- The sort key of a summary row under an ordering mode. -/
def jKey (ordem : OrdenarPor) (r : JRow) : Str × Str :=
  match ordem with
  | .cpf_data => (r.cpf, r.data)
  | .data_cpf => (r.data, r.cpf)

/-- The ordering relation on summary rows. -/
def jRowLe (ordem : OrdenarPor) (a b : JRow) : Prop :=
  pairLeB (jKey ordem a) (jKey ordem b) = true

instance (ordem : OrdenarPor) : DecidableRel (jRowLe ordem) :=
  fun _ _ => inferInstanceAs (Decidable (_ = true))

/-- `gerar_jornadas_por_cpf` (on already-loaded CSV rows): group the rows
by (tax ID, local date), render one journey row per group, and sort by
the selected key. -/
def gerar_jornadas (rows : List MarcacaoRow) (nPares : Nat := 4)
    (ordem : OrdenarPor := .data_cpf) : List JRow :=
  let linhas := (buildBuckets rows).map (fun kv => renderGroup nPares kv.1 kv.2)
  List.insertionSort (jRowLe ordem) linhas

-- ===============================
-- Claim-side (specification-worded) definitions
-- ===============================

/-- The pairing described by the spec: element 0 with element 1, element 2
with element 3, and so on; an odd trailing element pairs with nothing. -/
def pairUpSpec : List PyDateTime → List (PyDateTime × Option PyDateTime)
  | [] => []
  | [e] => [(e, none)]
  | e :: s :: rest => (e, some s) :: pairUpSpec rest

/-- The spec's per-pair contribution: `exit - entry` (in seconds) when
`exit > entry`, otherwise exactly zero; a missing exit contributes zero. -/
def contribSpec (p : PyDateTime × Option PyDateTime) : Int :=
  match p.2 with
  | none => 0
  | some s => if absMin s > absMin p.1 then 60 * (absMin s - absMin p.1) else 0

/-- A line the interpreter classifies: length at least 10 and the first 9
characters all digits. -/
def classifiable (ln : Str) : Bool :=
  10 ≤ ln.length && pyIsDigits (ln.take 9)

/-- The sequence of NSR values of all classifiable lines, in file order. -/
def nsrSeq (text : Str) : List Int :=
  ((splitLines text).filter classifiable).map (fun ln => (parsePyInt (ln.take 9)).getD 0)

-- ===============================
-- Helper lemmas
-- ===============================

/-- `_sum_pairs` computes exactly the spec's pairing and the sum of the
spec's per-pair contributions. -/
theorem sumPairsDT_eq_spec (ts : List PyDateTime) :
    sumPairsDT ts = (((pairUpSpec ts).map contribSpec).sum, pairUpSpec ts) := by
  induction ts using sumPairsDT.induct with
  | case1 => rfl
  | case2 e => simp [sumPairsDT, pairUpSpec, contribSpec]
  | case3 e s rest ih => simp [sumPairsDT, pairUpSpec, contribSpec, ih]

/-- Each spec contribution is nonnegative. -/
theorem contribSpec_nonneg (p : PyDateTime × Option PyDateTime) : 0 ≤ contribSpec p := by
  unfold contribSpec
  cases p.2 with
  | none => simp
  | some s => dsimp only; split <;> omega

/-- The total of `_sum_pairs` is never negative. -/
theorem sumPairsDT_total_nonneg (ts : List PyDateTime) : 0 ≤ (sumPairsDT ts).1 := by
  rw [sumPairsDT_eq_spec]
  dsimp only
  induction pairUpSpec ts with
  | nil => simp
  | cons p ps ih => simpa using add_nonneg (contribSpec_nonneg p) ih

/-- A list of integers equals its sorted copy iff it is non-decreasing. -/
theorem eq_insertionSort_iff_chain' (l : List Int) :
    l = List.insertionSort (· ≤ ·) l ↔ List.Chain' (· ≤ ·) l := by
  constructor
  · intro h
    rw [List.chain'_iff_pairwise]
    have := List.sorted_insertionSort (α := Int) (r := (· ≤ ·)) l
    rw [← h] at this
    exact this
  · intro h
    exact (List.Sorted.insertionSort_eq (List.chain'_iff_pairwise.mp h)).symm

/-- When classification succeeds, the classified pairs are exactly the
classifiable lines with their NSR values. -/
theorem classify_ok_fst {lines : List Str} {rs : List (Int × Str)} {es : List Erro}
    (h : classify lines = .ok (rs, es)) :
    rs.map Prod.fst =
      (lines.filter classifiable).map (fun ln => (parsePyInt (ln.take 9)).getD 0) := by
  induction lines generalizing rs es with
  | nil =>
      simp only [classify] at h
      cases h
      rfl
  | cons ln rest ih =>
      simp only [classify] at h
      by_cases hc : ln.length < 10 ∨ ¬ pyIsDigits (ln.take 9)
      · rw [if_pos hc] at h
        have hcf : classifiable ln = false := by
          unfold classifiable
          rcases hc with h1 | h1 <;> simp_all
        cases hrec : classify rest with
        | error e => rw [hrec] at h; exact absurd h (by simp)
        | ok pr =>
            rw [hrec] at h
            obtain ⟨rs', es'⟩ := pr
            simp only [Except.ok.injEq, Prod.mk.injEq] at h
            obtain ⟨h1, _⟩ := h
            simp only [List.filter_cons, hcf, Bool.false_eq_true, if_false]
            exact h1 ▸ ih hrec
      · rw [if_neg hc] at h
        have hct : classifiable ln = true := by
          unfold classifiable
          push_neg at hc
          simp_all
        cases hint : parsePyInt (ln.take 9) with
        | none => rw [hint] at h; exact absurd h (by simp)
        | some n =>
            rw [hint] at h
            cases hrec : classify rest with
            | error e => rw [hrec] at h; exact absurd h (by simp)
            | ok pr =>
                rw [hrec] at h
                obtain ⟨rs', es'⟩ := pr
                simp only [Except.ok.injEq, Prod.mk.injEq] at h
                obtain ⟨h1, _⟩ := h
                subst h1
                simp only [List.filter_cons, hct, if_true, List.map_cons, List.map,
                  hint, Option.getD_some]
                exact congrArg (List.cons n) (ih hrec)

/-- Unfolding a successful `interpretar_afd` call. -/
theorem interpretar_ok_elim {text : Str} {doc : Doc}
    (h : interpretar_afd text = .ok doc) :
    ∃ rs es, classify (splitLines text) = .ok (rs, es) ∧
      nothingParsed (foldState rs es) = false ∧ doc = buildDoc rs es := by
  unfold interpretar_afd at h
  by_cases he : (splitLines text).isEmpty
  · simp [he] at h
  · rw [if_neg he] at h
    cases hc : classify (splitLines text) with
    | error e => rw [hc] at h; exact absurd h (by simp)
    | ok pr =>
        obtain ⟨rs, es⟩ := pr
        rw [hc] at h
        dsimp only at h
        by_cases hn : nothingParsed (foldState rs es)
        · rw [if_pos hn] at h; exact absurd h (by simp)
        · rw [if_neg hn] at h
          simp only [Except.ok.injEq] at h
          exact ⟨rs, es, rfl, Bool.not_eq_true _ ▸ hn, h.symm⟩

-- ===============================
-- Claim C3
-- ===============================

/-- C3: for every (tax ID, local date) group of timestamps — in particular
for every ascending-sorted one — `_sum_pairs` pairs element 0 with 1,
2 with 3, and so on, an odd trailing element becoming an entry with no
exit; the total equals the sum over pairs of `exit - entry` restricted to
pairs with `exit > entry`, non-positive or missing pairs contributing
exactly zero, and the total is never negative. -/
theorem claim_C3_sum_pairs (ts : List PyDateTime) :
    sumPairsDT ts = (((pairUpSpec ts).map contribSpec).sum, pairUpSpec ts) ∧
      0 ≤ (sumPairsDT ts).1 :=
  ⟨sumPairsDT_eq_spec ts, sumPairsDT_total_nonneg ts⟩

-- ===============================
-- Claim C2
-- ===============================

/-- C2: whenever the interpreter returns a document, `ordem_nsr_ok` is
true iff the sequence of NSR values of all classifiable lines (length at
least 10, first 9 characters digits), in file order, is non-decreasing. -/
theorem claim_C2_ordem_nsr {text : Str} {doc : Doc}
    (h : interpretar_afd text = .ok doc) :
    doc.ordem_nsr_ok = true ↔ List.Chain' (· ≤ ·) (nsrSeq text) := by
  obtain ⟨rs, es, hcl, _, hdoc⟩ := interpretar_ok_elim h
  subst hdoc
  show ordemOk rs = true ↔ _
  unfold ordemOk
  rw [decide_eq_true_iff, nsrSeq, ← classify_ok_fst hcl]
  exact eq_insertionSort_iff_chain' _

/-- Digit characters of a digit-value list. -/
def mkDigits (l : List Nat) : Str := l.map (fun d => 48 + d)

/-- A concrete 34-character compact type-3 line with NSR `0000000 0 d`. -/
def compact3Line (d : Nat) : Str :=
  List.replicate 8 48 ++ [48 + d] ++ [51] ++ mkDigits [0, 1, 0, 2, 2, 0, 2, 5] ++
    mkDigits [0, 9, 1, 0] ++ List.replicate 12 48

/-- A concrete file whose NSRs are `[1, 2, 2, 3]`. -/
def wText2 : Str :=
  compact3Line 1 ++ 10 :: compact3Line 2 ++ 10 :: compact3Line 2 ++ 10 :: compact3Line 3

/-- The document `wText2` interprets to. -/
def wDoc2 : Doc :=
  match interpretar_afd wText2 with
  | .ok d => d
  | .error _ => buildDoc [] []

/-- Witness for C2 at a concrete file with NSRs `[1, 2, 2, 3]`. -/
theorem claim_C2_ordem_nsr_witness :
    interpretar_afd wText2 = .ok wDoc2 ∧ wDoc2.ordem_nsr_ok = true :=
  ⟨rfl, (@claim_C2_ordem_nsr wText2 wDoc2 rfl).mpr (by
    show List.Chain' (· ≤ ·) [(1 : Int), 2, 2, 3]
    exact List.chain'_cons.mpr ⟨by omega, List.chain'_cons.mpr ⟨by omega,
      List.chain'_cons.mpr ⟨by omega, List.chain'_singleton _⟩⟩⟩)⟩

-- ===============================
-- Claim C7
-- ===============================

/-- C7: whenever the interpreter returns a document, `contagens_ok` is
true iff either no trailer was parsed, or the trailer's six counts for
types 2..7 equal the corresponding bucket lengths and its own type field
is the literal 9. -/
theorem claim_C7_contagens {text : Str} {doc : Doc}
    (h : interpretar_afd text = .ok doc) :
    doc.contagens_ok = true ↔
      (doc.trailer = none ∨
        ∃ t, doc.trailer = some t ∧
          t.qtd_tipo2 = (doc.reg2.length : Int) ∧
          t.qtd_tipo3 = (doc.reg3.length : Int) ∧
          t.qtd_tipo4 = (doc.reg4.length : Int) ∧
          t.qtd_tipo5 = (doc.reg5.length : Int) ∧
          t.qtd_tipo6 = (doc.reg6.length : Int) ∧
          t.qtd_tipo7 = (doc.reg7.length : Int) ∧
          t.tipo = 9) := by
  obtain ⟨rs, es, hcl, hnp, hdoc⟩ := interpretar_ok_elim h
  subst hdoc
  simp only [buildDoc]
  unfold contagensOk
  cases htr : (foldState rs es).trailer with
  | none => simp
  | some t =>
      simp only [Bool.and_eq_true, decide_eq_true_iff, Option.some.injEq]
      constructor
      · rintro ⟨⟨⟨⟨⟨⟨h2, h3⟩, h4⟩, h5⟩, h6⟩, h7⟩, h9⟩
        exact Or.inr ⟨t, rfl, h2, h3, h4, h5, h6, h7, h9⟩
      · rintro (hnone | ⟨t', ht', h2, h3, h4, h5, h6, h7, h9⟩)
        · exact absurd hnone (by simp)
        · subst ht'
          exact ⟨⟨⟨⟨⟨⟨h2, h3⟩, h4⟩, h5⟩, h6⟩, h7⟩, h9⟩

/-- A concrete trailer-free file for the C7 witness. -/
def wText7 : Str := compact3Line 4

/-- The document `wText7` interprets to. -/
def wDoc7 : Doc :=
  match interpretar_afd wText7 with
  | .ok d => d
  | .error _ => buildDoc [] []

/-- Witness for C7: a file without a trailer has `contagens_ok` true. -/
theorem claim_C7_contagens_witness :
    interpretar_afd wText7 = .ok wDoc7 ∧ wDoc7.contagens_ok = true :=
  ⟨rfl, (@claim_C7_contagens wText7 wDoc7 rfl).mpr (Or.inl rfl)⟩

-- ===============================
-- Claim C8 (code bug: isdigit/int mismatch aborts the whole call)
-- ===============================

/-- A 10-character line whose first nine characters all pass `isdigit`
(the ninth is the superscript two, code point 178) but whose NSR is
rejected by `int`, crashing the classification pass. -/
def lineSuperscript : Str := mkDigits [1, 2, 3, 4, 5, 6, 7, 8] ++ [178, 51]

/-- A file holding one perfectly valid compact type-3 line and the
superscript-NSR line. -/
def wText8 : Str := compact3Line 5 ++ 10 :: lineSuperscript

/-- The document the valid line alone interprets to. -/
def wDoc8 : Doc :=
  match interpretar_afd (compact3Line 5) with
  | .ok d => d
  | .error _ => buildDoc [] []

/-- C8 (divergence): the interpreter raises an uncaught `ValueError` from
`int(ln[:9])` on a classifiable line with a superscript digit in its NSR,
even though the same file minus that line is perfectly interpretable —
so the hard error is not confined to the no-non-blank-lines /
nothing-interpretable cases the claim describes. -/
theorem claim_C8_hard_error_divergence :
    interpretar_afd wText8 = .error .intConversion ∧
      interpretar_afd (compact3Line 5) = .ok wDoc8 ∧
      wDoc8.reg3.length = 1 ∧ wDoc8.erros = [] :=
  ⟨rfl, rfl, rfl, rfl⟩

-- ===============================
-- Claim C5 (corrected: the spec's compact columns are off by one)
-- ===============================

/-- The compact type-3 reading prescribed by the claim's words: under the
1-based inclusive convention, date from columns 10-17 and time from
columns 18-21, synthesized with the fixed `-0300` offset. -/
def compactDhPerClaim (line : Str) : Option Str :=
  match ddmmaaaaToIso (sliceAB line 10 17), hhmmToHhmm (sliceAB line 18 21) with
  | some di, some hh => some (synthDh di hh)
  | _, _ => none

/-- The tax-ID reading prescribed by the claim's words: 1-based inclusive
columns 22-34. -/
def compactCpfPerClaim (line : Str) : Str := pyStrip (sliceAB line 22 34)

/-- A concrete, fully digit-valid 34-character compact type-3 line. -/
def lineC5 : Str :=
  mkDigits [1, 2, 3, 4, 5, 6, 7, 8, 9] ++ [51] ++ mkDigits [0, 1, 0, 2, 2, 0, 2, 5] ++
    mkDigits [0, 9, 1, 0] ++ mkDigits [1, 1, 1, 1, 1, 1, 1, 1, 1, 1, 1, 2]

/-- Counterexample to C5: on a line the compact parser accepts, the
claim's columns (date 10-17, time 18-21, tax ID 22-34, 1-based inclusive)
yield neither the parsed timestamp nor the parsed tax ID. -/
theorem claim_C5_counterexample :
    ∃ r, parse_registro3_compacto lineC5 = some r ∧
      compactDhPerClaim lineC5 ≠ some r.dh_marcacao ∧
      compactCpfPerClaim lineC5 ≠ r.cpf := by
  refine ⟨_, rfl, ?_, ?_⟩ <;> decide

/-- C5 as amended: under the spec's 1-based inclusive convention the
compact parser reads the `DDMMYYYY` date from columns 11-18, the `HHMM`
time from columns 19-22 and the tax ID from columns 23-34, and
synthesizes the timestamp as that local date and time with a fixed
`-0300` offset. -/
theorem claim_C5_compact_columns (line : Str) (r : Registro3)
    (h : parse_registro3_compacto line = some r) :
    (∃ di hh, ddmmaaaaToIso (sliceAB line 11 18) = some di ∧
        hhmmToHhmm (sliceAB line 19 22) = some hh ∧
        r.dh_marcacao = synthDh di hh) ∧
      r.cpf = pyStrip (sliceAB line 23 34) ∧
      r.crc16 = none ∧ r.crc_ok = none ∧ r.formato = .compacto := by
  unfold parse_registro3_compacto at h
  by_cases hl : line.length < 34
  · rw [if_pos hl] at h; exact absurd h (by simp)
  rw [if_neg hl] at h
  cases hn : parsePyInt (line.take 9) with
  | none => rw [hn] at h; exact absurd h (by simp)
  | some nsr =>
      rw [hn] at h
      dsimp only at h
      cases hd : ddmmaaaaToIso ((line.drop 10).take 8) with
      | none => rw [hd] at h; exact absurd h (by simp)
      | some di =>
          rw [hd] at h
          cases hh : hhmmToHhmm ((line.drop 18).take 4) with
          | none => rw [hh] at h; exact absurd h (by simp)
          | some hhv =>
              rw [hh] at h
              dsimp only at h
              by_cases he : (di.isEmpty || hhv.isEmpty) = true
              · rw [if_pos he] at h; exact absurd h (by simp)
              · rw [if_neg he] at h
                simp only [Option.some.injEq] at h
                subst h
                exact ⟨⟨di, hhv, hd, hh, rfl⟩, rfl, rfl, rfl, rfl⟩

/-- The record the concrete line `lineC5` parses to. -/
def wReg5 : Registro3 :=
  (parse_registro3_compacto lineC5).getD
    { nsr := 0, tipo := [], dh_marcacao := [], cpf := [],
      crc16 := none, crc_ok := none, formato := .compacto }

/-- Witness for the amended C5 at the concrete line `lineC5`. -/
theorem claim_C5_compact_columns_witness :
    (∃ di hh, ddmmaaaaToIso (sliceAB lineC5 11 18) = some di ∧
        hhmmToHhmm (sliceAB lineC5 19 22) = some hh ∧
        wReg5.dh_marcacao = synthDh di hh) ∧
      wReg5.cpf = pyStrip (sliceAB lineC5 23 34) ∧
      wReg5.crc16 = none ∧ wReg5.crc_ok = none ∧ wReg5.formato = .compacto :=
  claim_C5_compact_columns lineC5 wReg5 rfl

-- ===============================
-- Claim C4
-- ===============================

/-- C4: for a type-3 line the dispatcher attempts the official parser
first and, on its failure, the compact one; if both fail the line only
adds a line-scoped error (all buckets untouched); and every type-3 line
of length in `[34, 50)` whose date and time windows are digit strings
parses compactly with `formato = compacto` and `crc_ok = null`. -/
theorem claim_C4_fallback_policy :
    (∀ st (n : Int) line r, line.getD 9 0 = 51 →
        parse_registro3_oficial line = some r →
        step st (n, line) =
          { st with
            reg3 := st.reg3 ++ [r]
            crc3 := match r.crc_ok with | some b => st.crc3 ++ [b] | none => st.crc3 }) ∧
    (∀ st (n : Int) line r, line.getD 9 0 = 51 →
        parse_registro3_oficial line = none →
        parse_registro3_compacto line = some r →
        step st (n, line) =
          { st with
            reg3 := st.reg3 ++ [r]
            crc3 := match r.crc_ok with | some b => st.crc3 ++ [b] | none => st.crc3 }) ∧
    (∀ st (n : Int) line, line.getD 9 0 = 51 →
        parse_registro3_oficial line = none →
        parse_registro3_compacto line = none →
        step st (n, line) =
          { st with erros := st.erros ++ [.falhaParse (line.take 9) 51] }) ∧
    (∀ line, 34 ≤ line.length → line.length < 50 →
        pyIsDigits ((line.drop 10).take 8) = true →
        pyIsDigits ((line.drop 18).take 4) = true →
        ∀ n : Int, parsePyInt (line.take 9) = some n →
        parse_registro3_oficial line = none ∧
        ∃ r, parse_registro3_compacto line = some r ∧
          r.formato = .compacto ∧ r.crc_ok = none ∧ r.crc16 = none) := by
  refine ⟨?_, ?_, ?_, ?_⟩
  · intro st n line r ht hof
    unfold step
    dsimp only
    rw [ht, hof]
    rfl
  · intro st n line r ht hof hcomp
    unfold step
    dsimp only
    rw [ht, hof, hcomp]
    rfl
  · intro st n line ht hof hcomp
    unfold step
    dsimp only
    rw [ht, hof, hcomp]
    rfl
  · intro line h34 h50 hd hh n hn
    constructor
    · unfold parse_registro3_oficial
      rw [if_pos h50]
    · have hdl : ((line.drop 10).take 8).length = 8 := by
        simp [List.length_take, List.length_drop]
        omega
      have hhl : ((line.drop 18).take 4).length = 4 := by
        simp [List.length_take, List.length_drop]
        omega
      unfold parse_registro3_compacto
      rw [if_neg (by omega), hn]
      dsimp only
      unfold ddmmaaaaToIso hhmmToHhmm
      rw [if_pos ⟨hdl, hd⟩, if_pos ⟨hhl, hh⟩]
      dsimp only
      rw [if_neg (by simp)]
      exact ⟨_, rfl, rfl, rfl, rfl⟩

/-- The record the concrete compact line with NSR 1 parses to. -/
def wReg4c : Registro3 :=
  (parse_registro3_compacto (compact3Line 1)).getD
    { nsr := 0, tipo := [], dh_marcacao := [], cpf := [],
      crc16 := none, crc_ok := none, formato := .compacto }

/-- A 10-character type-3 line: too short for both layouts. -/
def shortLine3 : Str := mkDigits [0, 0, 0, 0, 0, 0, 0, 0, 3] ++ [51]

/-- Witness for C4: the concrete compact line falls back successfully and
is appended to the bucket; the 10-character line fails both parsers and
only adds an error. -/
theorem claim_C4_fallback_policy_witness :
    (step {} ((1 : Int), compact3Line 1) =
      { ({} : St) with
        reg3 := ({} : St).reg3 ++ [wReg4c]
        crc3 := match wReg4c.crc_ok with
          | some b => ({} : St).crc3 ++ [b]
          | none => ({} : St).crc3 }) ∧
    (step {} ((3 : Int), shortLine3) =
      { ({} : St) with
        erros := ({} : St).erros ++ [.falhaParse (shortLine3.take 9) 51] }) ∧
    parse_registro3_oficial (compact3Line 1) = none ∧
    (∃ r, parse_registro3_compacto (compact3Line 1) = some r ∧
      r.formato = .compacto ∧ r.crc_ok = none ∧ r.crc16 = none) :=
  ⟨claim_C4_fallback_policy.2.1 {} 1 (compact3Line 1) wReg4c rfl rfl rfl,
   claim_C4_fallback_policy.2.2.1 {} 3 shortLine3 rfl rfl rfl,
   (claim_C4_fallback_policy.2.2.2 (compact3Line 1) (by decide) (by decide)
     (by decide) (by decide) 1 rfl).1,
   (claim_C4_fallback_policy.2.2.2 (compact3Line 1) (by decide) (by decide)
     (by decide) (by decide) 1 rfl).2⟩

-- ===============================
-- Dispatch-step helper lemmas
-- ===============================

/-- Dispatch of a type-2 line whose parser succeeds. -/
theorem step_tipo2_some (st : St) (n : Int) (ln : Str) (r : Registro2)
    (ht : ln.getD 9 0 = 50) (hp : parse_registro2 ln = some r) :
    step st (n, ln) = { st with reg2 := st.reg2 ++ [r], crc2 := st.crc2 ++ [r.crc_ok] } := by
  unfold step
  dsimp only
  rw [ht, hp]
  rfl

/-- Dispatch of a type-3 line parsed by the official layout. -/
theorem step_tipo3_oficial (st : St) (n : Int) (ln : Str) (r : Registro3)
    (ht : ln.getD 9 0 = 51) (hp : parse_registro3_oficial ln = some r) :
    step st (n, ln) =
      { st with
        reg3 := st.reg3 ++ [r]
        crc3 := match r.crc_ok with | some b => st.crc3 ++ [b] | none => st.crc3 } := by
  unfold step
  dsimp only
  rw [ht, hp]
  rfl

/-- Dispatch of a type-3 line rejected by the official layout but parsed
by the compact fallback. -/
theorem step_tipo3_compacto (st : St) (n : Int) (ln : Str) (r : Registro3)
    (ht : ln.getD 9 0 = 51) (hof : parse_registro3_oficial ln = none)
    (hp : parse_registro3_compacto ln = some r) :
    step st (n, ln) =
      { st with
        reg3 := st.reg3 ++ [r]
        crc3 := match r.crc_ok with | some b => st.crc3 ++ [b] | none => st.crc3 } := by
  unfold step
  dsimp only
  rw [ht, hof, hp]
  rfl

/-- Dispatch of a type-4 line whose parser succeeds. -/
theorem step_tipo4_some (st : St) (n : Int) (ln : Str) (r : Registro4)
    (ht : ln.getD 9 0 = 52) (hp : parse_registro4 ln = some r) :
    step st (n, ln) = { st with reg4 := st.reg4 ++ [r], crc4 := st.crc4 ++ [r.crc_ok] } := by
  unfold step
  dsimp only
  rw [ht, hp]
  rfl

/-- Dispatch of a type-5 line whose parser succeeds. -/
theorem step_tipo5_some (st : St) (n : Int) (ln : Str) (r : Registro5)
    (ht : ln.getD 9 0 = 53) (hp : parse_registro5 ln = some r) :
    step st (n, ln) = { st with reg5 := st.reg5 ++ [r], crc5 := st.crc5 ++ [r.crc_ok] } := by
  unfold step
  dsimp only
  rw [ht, hp]
  rfl

/-- The compact type-3 parser succeeds on any line of length at least 34
with a parseable NSR and digit-valid date and time windows, producing the
synthesized timestamp — no calendar validation happens. -/
theorem parse3_compacto_success (ln : Str) (n : Int)
    (h34 : 34 ≤ ln.length) (hn : parsePyInt (ln.take 9) = some n)
    (hd : pyIsDigits ((ln.drop 10).take 8) = true)
    (hh : pyIsDigits ((ln.drop 18).take 4) = true) :
    ∃ di hhv, ddmmaaaaToIso ((ln.drop 10).take 8) = some di ∧
      hhmmToHhmm ((ln.drop 18).take 4) = some hhv ∧
      parse_registro3_compacto ln = some
        { nsr := n, tipo := [ln.getD 9 0], dh_marcacao := synthDh di hhv,
          cpf := pyStrip ((ln.drop 22).take 12),
          crc16 := none, crc_ok := none, formato := .compacto } := by
  have hdl : ((ln.drop 10).take 8).length = 8 := by
    simp [List.length_take, List.length_drop]
    omega
  have hhl : ((ln.drop 18).take 4).length = 4 := by
    simp [List.length_take, List.length_drop]
    omega
  have hdi : ddmmaaaaToIso ((ln.drop 10).take 8) =
      some ((((ln.drop 10).take 8).drop 4).take 4 ++ 45 ::
        (((((ln.drop 10).take 8).drop 2).take 2) ++ 45 :: ((ln.drop 10).take 8).take 2)) := by
    unfold ddmmaaaaToIso
    rw [if_pos ⟨hdl, hd⟩]
  have hhv : hhmmToHhmm ((ln.drop 18).take 4) =
      some (((ln.drop 18).take 4).take 2 ++ 58 :: (((ln.drop 18).take 4).drop 2).take 2) := by
    unfold hhmmToHhmm
    rw [if_pos ⟨hhl, hh⟩]
  refine ⟨_, _, hdi, hhv, ?_⟩
  unfold parse_registro3_compacto
  rw [if_neg (by omega), hn]
  dsimp only
  rw [hdi, hhv]
  dsimp only
  rw [if_neg (by simp)]

/-- Folding the grouping step over a row that contributes no key leaves
the accumulator unchanged. -/
theorem buildBuckets_skip (xs ys : List MarcacaoRow) (r : MarcacaoRow)
    (h : rowKeyVal r = none) :
    buildBuckets (xs ++ r :: ys) = buildBuckets (xs ++ ys) := by
  unfold buildBuckets
  rw [List.foldl_append, List.foldl_append, List.foldl_cons, h]

/-- A timestamp that fails strict parsing makes the whole row contribute
no key. -/
theorem rowKeyVal_none_of_bad_dh (r : MarcacaoRow)
    (h : parseIsoDh (pyStrip r.dh_marcacao) = none) : rowKeyVal r = none := by
  unfold rowKeyVal
  dsimp only
  split
  · rfl
  · rw [h]

-- ===============================
-- Claim C10
-- ===============================

/-- The claim's "real calendar date/time" for a local timestamp: year at
least 1, month 1-12, day within the month, hour 0-23, minute 0-59. -/
def realCalendarDh (y mo d h mi : Nat) : Prop :=
  1 ≤ y ∧ 1 ≤ mo ∧ mo ≤ 12 ∧ 1 ≤ d ∧ d ≤ daysInMonth y mo ∧ h ≤ 23 ∧ mi ≤ 59

instance (y mo d h mi : Nat) : Decidable (realCalendarDh y mo d h mi) :=
  inferInstanceAs (Decidable (_ ∧ _))

/-- C10: the compact type-3 parser checks only length and digit-ness —
(a) any line of length ≥ 34 with digit date/time windows parses, the
timestamp being synthesized textually; (b) the record then lands in
bucket "3" whenever the official parser rejected the line; (c) if the
synthesized timestamp is not a real calendar date/time, it fails the
summarizer's strict parsing; and (d) a row whose timestamp fails strict
parsing is silently excluded from every journey row. -/
theorem claim_C10_no_calendar_validation :
    (∀ (ln : Str) (n : Int), 34 ≤ ln.length → parsePyInt (ln.take 9) = some n →
        pyIsDigits ((ln.drop 10).take 8) = true →
        pyIsDigits ((ln.drop 18).take 4) = true →
        ∃ di hhv, ddmmaaaaToIso ((ln.drop 10).take 8) = some di ∧
          hhmmToHhmm ((ln.drop 18).take 4) = some hhv ∧
          parse_registro3_compacto ln = some
            { nsr := n, tipo := [ln.getD 9 0], dh_marcacao := synthDh di hhv,
              cpf := pyStrip ((ln.drop 22).take 12),
              crc16 := none, crc_ok := none, formato := .compacto }) ∧
    (∀ st (n : Int) ln r, ln.getD 9 0 = 51 →
        parse_registro3_oficial ln = none →
        parse_registro3_compacto ln = some r →
        (step st (n, ln)).reg3 = st.reg3 ++ [r]) ∧
    (∀ d0 d1 d2 d3 d4 d5 d6 d7 h0 h1 h2 h3 : Nat,
        ¬ realCalendarDh
            (1000 * (d4 - 48) + 100 * (d5 - 48) + 10 * (d6 - 48) + (d7 - 48))
            (10 * (d2 - 48) + (d3 - 48))
            (10 * (d0 - 48) + (d1 - 48))
            (10 * (h0 - 48) + (h1 - 48))
            (10 * (h2 - 48) + (h3 - 48)) →
        parseIsoDh (synthDh ([d4, d5, d6, d7] ++ 45 :: ([d2, d3] ++ 45 :: [d0, d1]))
          ([h0, h1] ++ 58 :: [h2, h3])) = none) ∧
    (∀ (nP : Nat) (o : OrdenarPor) (xs ys : List MarcacaoRow) (r : MarcacaoRow),
        parseIsoDh (pyStrip r.dh_marcacao) = none →
        gerar_jornadas (xs ++ r :: ys) nP o = gerar_jornadas (xs ++ ys) nP o) := by
  refine ⟨parse3_compacto_success, ?_, ?_, ?_⟩
  · intro st n ln r ht hof hp
    rw [step_tipo3_compacto st n ln r ht hof hp]
  · intro d0 d1 d2 d3 d4 d5 d6 d7 h0 h1 h2 h3 hreal
    show parseIsoDh [d4, d5, d6, d7, 45, d2, d3, 45, d0, d1, 84, h0, h1, 58, h2, h3,
      58, 48, 48, 45, 48, 51, 48, 48] = none
    simp only [parseIsoDh]
    split
    · rw [if_neg]
      intro hcon
      exact hreal ⟨hcon.1, hcon.2.1, hcon.2.2.1, hcon.2.2.2.1, hcon.2.2.2.2.1,
        hcon.2.2.2.2.2.1, hcon.2.2.2.2.2.2.1⟩
    · rfl
  · intro nP o xs ys r h
    unfold gerar_jornadas
    rw [buildBuckets_skip xs ys r (rowKeyVal_none_of_bad_dh r h)]

/-- A compact type-3 line whose date window holds month 13. -/
def lineC10 : Str :=
  mkDigits [0, 0, 0, 0, 0, 0, 0, 1, 0] ++ [51] ++ mkDigits [1, 0, 1, 3, 2, 0, 2, 5] ++
    mkDigits [0, 9, 1, 0] ++ mkDigits [2, 2, 2, 2, 2, 2, 2, 2, 2, 2, 2, 2]

/-- The record `lineC10` parses to (timestamp `2025-13-10T09:10:00-0300`). -/
def wReg10 : Registro3 :=
  (parse_registro3_compacto lineC10).getD
    { nsr := 0, tipo := [], dh_marcacao := [], cpf := [],
      crc16 := none, crc_ok := none, formato := .compacto }

/-- A punches-CSV row carrying the month-13 timestamp. -/
def badRow10 : MarcacaoRow :=
  { nsr := [49], dh_marcacao := wReg10.dh_marcacao, cpf := mkDigits [2, 2, 2],
    crc16 := [], crc_ok := [], formato := [] }

/-- A punches-CSV row carrying a real timestamp. -/
def goodRow10 : MarcacaoRow :=
  { nsr := [49],
    dh_marcacao := synthDh (mkDigits [2, 0, 2, 5] ++ 45 :: (mkDigits [0, 7] ++ 45 :: mkDigits [1, 6]))
      (mkDigits [1, 8] ++ 58 :: mkDigits [2, 2]),
    cpf := mkDigits [1, 1, 1], crc16 := [], crc_ok := [], formato := [] }

/-- Witness for C10 at the concrete month-13 line: it parses compactly,
lands in the bucket, its timestamp fails strict parsing, and its row is
excluded from the journey output. -/
theorem claim_C10_no_calendar_validation_witness :
    (∃ di hhv, ddmmaaaaToIso ((lineC10.drop 10).take 8) = some di ∧
        hhmmToHhmm ((lineC10.drop 18).take 4) = some hhv ∧
        parse_registro3_compacto lineC10 = some
          { nsr := 10, tipo := [lineC10.getD 9 0], dh_marcacao := synthDh di hhv,
            cpf := pyStrip ((lineC10.drop 22).take 12),
            crc16 := none, crc_ok := none, formato := .compacto }) ∧
      (step {} ((10 : Int), lineC10)).reg3 = ({} : St).reg3 ++ [wReg10] ∧
      parseIsoDh (synthDh ([50, 48, 50, 53] ++ 45 :: ([49, 51] ++ 45 :: [49, 48]))
        ([48, 57] ++ 58 :: [49, 48])) = none ∧
      gerar_jornadas ([goodRow10] ++ badRow10 :: []) 4 .data_cpf =
        gerar_jornadas ([goodRow10] ++ []) 4 .data_cpf :=
  ⟨claim_C10_no_calendar_validation.1 lineC10 10 (by decide) rfl (by decide) (by decide),
   claim_C10_no_calendar_validation.2.1 {} 10 lineC10 wReg10 rfl rfl rfl,
   claim_C10_no_calendar_validation.2.2.1 49 48 49 51 50 48 50 53 48 57 49 48 (by decide),
   claim_C10_no_calendar_validation.2.2.2 4 .data_cpf [goodRow10] [] badRow10 (by decide)⟩

-- ===============================
-- Claim C9
-- ===============================

/-- The projection of a punches-CSV row the summarizer actually reads:
tax ID and timestamp. -/
def rowProj (r : MarcacaoRow) : Str × Str := (r.cpf, r.dh_marcacao)

/-- The grouping contribution as a function of the projection alone. -/
def keyOfProj (p : Str × Str) : Option ((Str × Str) × PyDateTime) :=
  let cpf := pyStrip p.1
  let dh := pyStrip p.2
  if cpf.isEmpty || dh.isEmpty then none
  else
    match parseIsoDh dh with
    | some dt => some ((cpf, dateIso dt), dt)
    | none => none

/-- A row's grouping contribution reads only its projection. -/
theorem rowKeyVal_eq_keyOfProj (r : MarcacaoRow) :
    rowKeyVal r = keyOfProj (rowProj r) := rfl

/-- The grouping of the rows is a function of their projections. -/
theorem buildBuckets_eq_of_proj {rows rows' : List MarcacaoRow}
    (h : rows.map rowProj = rows'.map rowProj) :
    buildBuckets rows = buildBuckets rows' := by
  have key : ∀ l : List MarcacaoRow,
      buildBuckets l =
        (l.map rowProj).foldl
          (fun bs p => match keyOfProj p with
            | some kv => upsert bs kv.1 kv.2
            | none => bs) [] := by
    intro l
    unfold buildBuckets
    rw [List.foldl_map]
    rfl
  rw [key, key, h]

/-- C9: a failed checksum never excludes a record — for types 2, 3
(official), 4 and 5, a parse success with checksum comparison false is
still appended to its bucket; and the journey summarizer reads only the
tax ID and timestamp fields of its rows. -/
theorem claim_C9_crc_never_excludes :
    (∀ st (n : Int) ln r, ln.getD 9 0 = 50 → parse_registro2 ln = some r →
        r.crc_ok = false → (step st (n, ln)).reg2 = st.reg2 ++ [r]) ∧
    (∀ st (n : Int) ln r, ln.getD 9 0 = 51 → parse_registro3_oficial ln = some r →
        r.crc_ok = some false → (step st (n, ln)).reg3 = st.reg3 ++ [r]) ∧
    (∀ st (n : Int) ln r, ln.getD 9 0 = 52 → parse_registro4 ln = some r →
        r.crc_ok = false → (step st (n, ln)).reg4 = st.reg4 ++ [r]) ∧
    (∀ st (n : Int) ln r, ln.getD 9 0 = 53 → parse_registro5 ln = some r →
        r.crc_ok = false → (step st (n, ln)).reg5 = st.reg5 ++ [r]) ∧
    (∀ rows rows' : List MarcacaoRow, rows.map rowProj = rows'.map rowProj →
        ∀ (nP : Nat) (o : OrdenarPor),
          gerar_jornadas rows nP o = gerar_jornadas rows' nP o) := by
  refine ⟨?_, ?_, ?_, ?_, ?_⟩
  · intro st n ln r ht hp _
    rw [step_tipo2_some st n ln r ht hp]
  · intro st n ln r ht hp _
    rw [step_tipo3_oficial st n ln r ht hp]
  · intro st n ln r ht hp _
    rw [step_tipo4_some st n ln r ht hp]
  · intro st n ln r ht hp _
    rw [step_tipo5_some st n ln r ht hp]
  · intro rows rows' h nP o
    unfold gerar_jornadas
    rw [buildBuckets_eq_of_proj h]

/-- A 50-character official type-3 line with a valid timestamp and a
mismatched checksum field. -/
def line3w : Str :=
  mkDigits [0, 0, 0, 0, 0, 0, 0, 0, 1] ++ [51] ++
    synthDh (mkDigits [2, 0, 2, 5] ++ 45 :: (mkDigits [0, 7] ++ 45 :: mkDigits [1, 6]))
      (mkDigits [1, 8] ++ 58 :: mkDigits [2, 2]) ++
    List.replicate 12 48 ++ mkDigits [0, 0, 0, 0]

/-- The record `line3w` parses to. -/
def wReg3w : Registro3 :=
  (parse_registro3_oficial line3w).getD
    { nsr := 0, tipo := [], dh_marcacao := [], cpf := [],
      crc16 := none, crc_ok := none, formato := .oficial }

/-- Two rows equal on the summarizer-read projection but with different
checksum-validity strings. -/
def rowCrcTrue : MarcacaoRow :=
  { nsr := [49], dh_marcacao := goodRow10.dh_marcacao, cpf := mkDigits [3, 3, 3],
    crc16 := [48], crc_ok := [84], formato := [] }

/-- The same row with a different `crc_ok` string. -/
def rowCrcFalse : MarcacaoRow :=
  { nsr := [50], dh_marcacao := goodRow10.dh_marcacao, cpf := mkDigits [3, 3, 3],
    crc16 := [49], crc_ok := [70], formato := [] }

set_option maxRecDepth 1000000 in
/-- Witness for C9: the concrete checksum-failing official type-3 line is
still appended to its bucket, and the journey output ignores every
non-projection field. -/
theorem claim_C9_crc_never_excludes_witness :
    ((step {} ((1 : Int), line3w)).reg3 = ({} : St).reg3 ++ [wReg3w] ∧ wReg3w.crc_ok = some false) ∧
    gerar_jornadas [rowCrcTrue] 4 .data_cpf = gerar_jornadas [rowCrcFalse] 4 .data_cpf :=
  ⟨⟨claim_C9_crc_never_excludes.2.1 {} 1 line3w wReg3w (by decide) (by decide) (by decide), by decide⟩,
   claim_C9_crc_never_excludes.2.2.2.2 [rowCrcTrue] [rowCrcFalse] rfl 4 .data_cpf⟩

-- ===============================
-- Claim C1
-- ===============================

/-- The claim's reference bit-round: right-shift, XOR with 0xA001 exactly
when the low bit was set (phrased with shift-and-mask primitives). -/
def crcSpecRound (c : Nat) : Nat :=
  (c >>> 1) ^^^ (if c &&& 1 = 1 then 0xA001 else 0)

/-- The claim's reference byte update: XOR the byte into the register,
then 8 bit-rounds. -/
def crcSpecByte (c b : Nat) : Nat := crcSpecRound^[8] (c ^^^ b)

/-- The reference CRC-16/ARC: initial register 0x0000, a left fold of the
byte update, final value masked to 16 bits (no final XOR). -/
def crc16Spec (data : List Nat) : Nat := (data.foldl crcSpecByte 0) &&& 0xFFFF

/-- The claim's rendering of the checksum: four uppercase hexadecimal
digits, phrased with shift-and-mask nibble extraction. -/
def hex4Spec (x : Nat) : Str :=
  [hexDigitChar ((x >>> 12) &&& 15), hexDigitChar ((x >>> 8) &&& 15),
   hexDigitChar ((x >>> 4) &&& 15), hexDigitChar (x &&& 15)]

/-- The two phrasings of the bit-round agree. -/
theorem crcStep_eq_specRound (c : Nat) : crcStep c = crcSpecRound c := by
  unfold crcStep crcSpecRound
  rw [Nat.and_one_is_mod, Nat.shiftRight_eq_div_pow, pow_one]
  rcases Nat.mod_two_eq_zero_or_one c with h | h
  · rw [if_neg (by omega), if_neg (by omega), Nat.xor_zero]
  · rw [if_pos h, if_pos h]

/-- The inner loop is an 8-fold iterate of the bit-round. -/
theorem crcInner_eq_iterate (k c : Nat) : crcInner k c = crcSpecRound^[k] c := by
  induction k generalizing c with
  | zero => rfl
  | succ k ih =>
      rw [Function.iterate_succ_apply]
      unfold crcInner
      rw [ih, crcStep_eq_specRound]

/-- The outer loop is a left fold of the byte update. -/
theorem crcOuter_eq_foldl (data : List Nat) (c : Nat) :
    crcOuter c data = data.foldl crcSpecByte c := by
  induction data generalizing c with
  | nil => rfl
  | cons b rest ih =>
      rw [List.foldl_cons, ← ih]
      show crcOuter (crcInner 8 (c ^^^ b)) rest = crcOuter (crcSpecByte c b) rest
      rw [crcInner_eq_iterate]
      rfl

/-- Nibble extraction by shift-and-mask equals division-and-remainder. -/
theorem hex4_eq_spec (x : Nat) : hex4 x = hex4Spec x := by
  unfold hex4 hex4Spec
  have hm : ∀ y : Nat, y &&& 15 = y % 16 := fun y => by
    have := Nat.and_pow_two_sub_one_eq_mod y 4
    norm_num at this
    exact this
  rw [Nat.shiftRight_eq_div_pow, Nat.shiftRight_eq_div_pow, Nat.shiftRight_eq_div_pow,
    hm, hm, hm, hm]

/-- A characterization of a successful official type-3 parse. -/
theorem parse3_oficial_elim {ln : Str} {r : Registro3}
    (h : parse_registro3_oficial ln = some r) :
    50 ≤ ln.length ∧ isIsoDh (sliceAB ln 11 34) = true ∧
      r.dh_marcacao = sliceAB ln 11 34 ∧
      r.cpf = pyStrip (sliceAB ln 35 46) ∧
      r.crc16 = some (pyUpper (sliceAB ln 47 50)) ∧
      r.crc_ok = some (crcOk3 ln) ∧ r.formato = .oficial := by
  unfold parse_registro3_oficial at h
  by_cases hl : ln.length < 50
  · rw [if_pos hl] at h; exact absurd h (by simp)
  · rw [if_neg hl] at h
    cases hn : parsePyInt (sliceAB ln 1 9) with
    | none => rw [hn] at h; exact absurd h (by simp)
    | some n =>
        rw [hn] at h
        dsimp only at h
        by_cases hiso : isIsoDh (sliceAB ln 11 34)
        · rw [if_pos hiso] at h
          simp only [Option.some.injEq] at h
          subst h
          exact ⟨by omega, hiso, rfl, rfl, rfl, rfl, rfl⟩
        · rw [if_neg hiso] at h; exact absurd h (by simp)

/-- C1: the checksum engine is exactly the reference CRC-16/ARC (initial
register 0, per-byte XOR then 8 right-shift rounds with 0xA001, final
16-bit mask, no final XOR), its value is a 16-bit quantity, the per-line
verification hashes the line's characters with the checksum field's span
excised (prefix concatenated with suffix), one latin-1 byte per
character, rendered as 4 uppercase hex digits; and an official type-3
record's `crc_ok` is the comparison of that rendering against the
uppercased literal field text. -/
theorem claim_C1_crc16_arc :
    (∀ data : List Nat, crc16_ibm_arc data = crc16Spec data) ∧
    (∀ data : List Nat, crc16_ibm_arc data < 65536) ∧
    (∀ (line : Str) (a b : Nat),
        crc16Hex4ForLine line a b =
          hex4Spec (crc16Spec (encLatin1 (line.take (a - 1) ++ line.drop b)))) ∧
    (∀ (line : Str) (r : Registro3), parse_registro3_oficial line = some r →
        r.crc_ok = some (decide (pyUpper (sliceAB line 47 50) =
          hex4Spec (crc16Spec (encLatin1 (line.take 46 ++ line.drop 50)))))) := by
  have hcrc : ∀ data : List Nat, crc16_ibm_arc data = crc16Spec data := by
    intro data
    unfold crc16_ibm_arc crc16Spec
    rw [crcOuter_eq_foldl]
  have hslice : ∀ (line : Str) (a b : Nat),
      sliceAB line 1 (a - 1) ++ sliceAB line (b + 1) line.length =
        line.take (a - 1) ++ line.drop b := by
    intro line a b
    unfold sliceAB
    have h2 : b + 1 - 1 = b := by omega
    simp only [Nat.sub_self, Nat.sub_zero, List.drop_zero, h2]
    congr 1
    have hlen : (line.drop b).length = line.length - b := List.length_drop ..
    rw [← hlen, List.take_length]
  have hh4 : ∀ (line : Str) (a b : Nat),
      crc16Hex4ForLine line a b =
        hex4Spec (crc16Spec (encLatin1 (line.take (a - 1) ++ line.drop b))) := by
    intro line a b
    unfold crc16Hex4ForLine
    rw [hslice, hex4_eq_spec, hcrc]
  refine ⟨hcrc, ?_, hh4, ?_⟩
  · intro data
    unfold crc16_ibm_arc
    have := Nat.and_le_right (n := crcOuter 0 data) (m := 0xFFFF)
    omega
  · intro line r h
    obtain ⟨-, -, -, -, -, hok, -⟩ := parse3_oficial_elim h
    rw [hok]
    unfold crcOk3
    rw [hh4]

/-- The checksum-true official line used as the C1 witness (its checksum
field `FCEB` matches the CRC of the rest of the line). -/
def lineTrue : Str :=
  mkDigits [0, 0, 0, 0, 0, 0, 0, 0, 1] ++ [51] ++
    synthDh (mkDigits [2, 0, 2, 5] ++ 45 :: (mkDigits [0, 7] ++ 45 :: mkDigits [1, 6]))
      (mkDigits [1, 8] ++ 58 :: mkDigits [2, 2]) ++
    List.replicate 12 48 ++ [70, 67, 69, 66]

/-- The record `lineTrue` parses to. -/
def wReg1w : Registro3 :=
  (parse_registro3_oficial lineTrue).getD
    { nsr := 0, tipo := [], dh_marcacao := [], cpf := [],
      crc16 := none, crc_ok := none, formato := .oficial }

set_option maxRecDepth 1000000 in
/-- Witness for C1 at the concrete line `lineTrue`. -/
theorem claim_C1_crc16_arc_witness :
    parse_registro3_oficial lineTrue = some wReg1w ∧
      wReg1w.crc_ok = some (decide (pyUpper (sliceAB lineTrue 47 50) =
        hex4Spec (crc16Spec (encLatin1 (lineTrue.take 46 ++ lineTrue.drop 50))))) ∧
      wReg1w.crc_ok = some true :=
  ⟨by decide, claim_C1_crc16_arc.2.2.2 lineTrue wReg1w (by decide), by decide⟩

-- ===============================
-- CRC-16 mutation sensitivity machinery (for C6)
-- ===============================

/-- XOR-ing the same value is right-cancellable. -/
theorem natXor_right_cancel {a b x : Nat} (h : a ^^^ x = b ^^^ x) : a = b := by
  have h2 := congrArg (· ^^^ x) h
  simpa [Nat.xor_assoc, Nat.xor_self, Nat.xor_zero] using h2

/-- XOR-ing the same value is left-cancellable. -/
theorem natXor_left_cancel {x a b : Nat} (h : x ^^^ a = x ^^^ b) : a = b := by
  rw [Nat.xor_comm x a, Nat.xor_comm x b] at h
  exact natXor_right_cancel h

/-- The bit-round keeps the register below 2^16. -/
theorem crcStep_lt {c : Nat} (h : c < 65536) : crcStep c < 65536 := by
  unfold crcStep
  split
  · have h1 : c / 2 < 2 ^ 16 := by norm_num; omega
    have h2 : (40961 : Nat) < 2 ^ 16 := by norm_num
    have h3 := Nat.xor_lt_two_pow h1 h2
    norm_num at h3
    exact h3
  · omega

/-- The bit-round is injective on 16-bit registers. -/
theorem crcStep_inj {a b : Nat} (ha : a < 65536) (hb : b < 65536)
    (h : crcStep a = crcStep b) : a = b := by
  have hbit : Nat.testBit 40961 15 = true := by decide
  have hhigh : ∀ x : Nat, x < 32768 → 32768 ≤ x ^^^ 40961 := by
    intro x hx
    have hx15 : x.testBit 15 = false :=
      Nat.testBit_lt_two_pow (by norm_num; omega)
    have : (x ^^^ 40961).testBit 15 = true := by
      rw [Nat.testBit_xor, hx15, hbit]
      rfl
    have := Nat.testBit_implies_ge this
    norm_num at this
    omega
  unfold crcStep at h
  rcases Nat.mod_two_eq_zero_or_one a with hpa | hpa <;>
    rcases Nat.mod_two_eq_zero_or_one b with hpb | hpb
  · rw [if_neg (by omega), if_neg (by omega)] at h
    omega
  · rw [if_neg (by omega), if_pos hpb] at h
    have := hhigh (b / 2) (by omega)
    omega
  · rw [if_pos hpa, if_neg (by omega)] at h
    have := hhigh (a / 2) (by omega)
    omega
  · rw [if_pos hpa, if_pos hpb] at h
    have := natXor_right_cancel h
    omega

/-- The inner loop keeps the register below 2^16. -/
theorem crcInner_lt (k : Nat) {c : Nat} (h : c < 65536) : crcInner k c < 65536 := by
  induction k generalizing c with
  | zero => exact h
  | succ k ih => exact ih (crcStep_lt h)

/-- The inner loop is injective on 16-bit registers. -/
theorem crcInner_inj (k : Nat) {a b : Nat} (ha : a < 65536) (hb : b < 65536)
    (h : crcInner k a = crcInner k b) : a = b := by
  induction k generalizing a b with
  | zero => exact h
  | succ k ih =>
      exact crcStep_inj ha hb (ih (crcStep_lt ha) (crcStep_lt hb) h)

/-- The outer loop keeps the register below 2^16 when every byte is. -/
theorem crcOuter_lt {l : List Nat} {c : Nat} (h : c < 65536)
    (hl : ∀ x ∈ l, x < 65536) : crcOuter c l < 65536 := by
  induction l generalizing c with
  | nil => exact h
  | cons b rest ih =>
      exact ih
        (crcInner_lt 8 (by
          have hb : b < 65536 := hl b (by simp)
          have := Nat.xor_lt_two_pow (n := 16) (x := c) (y := b)
            (by norm_num; omega) (by norm_num; omega)
          norm_num at this
          exact this))
        (fun x hx => hl x (by simp [hx]))

/-- The outer loop is injective in its starting register when every byte
is a 16-bit value. -/
theorem crcOuter_inj {l : List Nat} {a b : Nat} (ha : a < 65536) (hb : b < 65536)
    (hl : ∀ x ∈ l, x < 65536) (h : crcOuter a l = crcOuter b l) : a = b := by
  induction l generalizing a b with
  | nil => exact h
  | cons x rest ih =>
      have hx : x < 65536 := hl x (by simp)
      have hax : a ^^^ x < 65536 := by
        have := Nat.xor_lt_two_pow (n := 16) (x := a) (y := x)
          (by norm_num; omega) (by norm_num; omega)
        norm_num at this
        exact this
      have hbx : b ^^^ x < 65536 := by
        have := Nat.xor_lt_two_pow (n := 16) (x := b) (y := x)
          (by norm_num; omega) (by norm_num; omega)
        norm_num at this
        exact this
      have hrec := ih (crcInner_lt 8 hax) (crcInner_lt 8 hbx)
        (fun y hy => hl y (by simp [hy])) h
      exact natXor_right_cancel (crcInner_inj 8 hax hbx hrec)

/-- The outer loop over a concatenation runs sequentially. -/
theorem crcOuter_append (c : Nat) (xs ys : List Nat) :
    crcOuter c (xs ++ ys) = crcOuter (crcOuter c xs) ys := by
  induction xs generalizing c with
  | nil => rfl
  | cons b rest ih =>
      show crcOuter (crcInner 8 (c ^^^ b)) (rest ++ ys) = _
      rw [ih]
      rfl

/-- Changing one 16-bit byte of the data changes the unmasked CRC. -/
theorem crcOuter_mutation {w z : List Nat} {c c' : Nat}
    (hw : ∀ x ∈ w, x < 65536) (hz : ∀ x ∈ z, x < 65536)
    (hc : c < 65536) (hc' : c' < 65536) (hne : c ≠ c') :
    crcOuter 0 (w ++ c :: z) ≠ crcOuter 0 (w ++ c' :: z) := by
  intro h
  rw [crcOuter_append, crcOuter_append] at h
  set R := crcOuter 0 w with hR
  have hRlt : R < 65536 := crcOuter_lt (by norm_num) hw
  have hxc : R ^^^ c < 65536 := by
    have := Nat.xor_lt_two_pow (n := 16) (x := R) (y := c)
      (by norm_num; omega) (by norm_num; omega)
    norm_num at this
    exact this
  have hxc' : R ^^^ c' < 65536 := by
    have := Nat.xor_lt_two_pow (n := 16) (x := R) (y := c')
      (by norm_num; omega) (by norm_num; omega)
    norm_num at this
    exact this
  have h1 : crcOuter (crcInner 8 (R ^^^ c)) z = crcOuter (crcInner 8 (R ^^^ c')) z := h
  have h2 := crcOuter_inj (crcInner_lt 8 hxc) (crcInner_lt 8 hxc') hz h1
  exact hne (natXor_left_cancel (crcInner_inj 8 hxc hxc' h2))

/-- Masking to 16 bits is the identity below 2^16. -/
theorem mask16_eq_self {x : Nat} (h : x < 65536) : x &&& 0xFFFF = x := by
  have hm := Nat.and_pow_two_sub_one_eq_mod x 16
  norm_num at hm
  rw [hm]
  omega

/-- `hexDigitChar` is injective below 16. -/
theorem hexDigitChar_inj {a b : Nat} (ha : a < 16) (hb : b < 16)
    (h : hexDigitChar a = hexDigitChar b) : a = b := by
  unfold hexDigitChar at h
  split_ifs at h <;> omega

/-- `hex4` is injective below 2^16. -/
theorem hex4_inj {a b : Nat} (ha : a < 65536) (hb : b < 65536)
    (h : hex4 a = hex4 b) : a = b := by
  unfold hex4 at h
  simp only [List.cons.injEq, and_true] at h
  obtain ⟨h1, h2, h3, h4⟩ := h
  have e1 := hexDigitChar_inj (by omega) (by omega) h1
  have e2 := hexDigitChar_inj (by omega) (by omega) h2
  have e3 := hexDigitChar_inj (by omega) (by omega) h3
  have e4 := hexDigitChar_inj (by omega) (by omega) h4
  omega

/-- Latin-1 encoded bytes are 16-bit values. -/
theorem encLatin1_bytes_lt (s : Str) : ∀ x ∈ encLatin1 s, x < 65536 := by
  intro x hx
  unfold encLatin1 at hx
  obtain ⟨y, -, rfl⟩ := List.mem_map.mp hx
  unfold encChar
  split <;> omega

/-- Encoding is the identity on genuine latin-1 code points. -/
theorem encChar_eq_self {c : Nat} (h : c < 256) : encChar c = c := by
  unfold encChar
  rw [if_pos h]

/-- The excised span of the type-3 checksum verification, as prefix
concatenated with suffix. -/
theorem excise3_take_drop (l : Str) :
    sliceAB l 1 46 ++ sliceAB l 51 l.length = l.take 46 ++ l.drop 50 := by
  show l.take 46 ++ (l.drop 50).take (l.length - 50) = l.take 46 ++ l.drop 50
  congr 1
  have hlen : (l.drop 50).length = l.length - 50 := List.length_drop ..
  rw [← hlen, List.take_length]

/-- Mutating one character outside the checksum field leaves the field's
column span unchanged. -/
theorem field_slice_mut (u v : Str) (c c' : Nat)
    (hp : u.length ≤ 45 ∨ 50 ≤ u.length) :
    sliceAB (u ++ c :: v) 47 50 = sliceAB (u ++ c' :: v) 47 50 := by
  show ((u ++ c :: v).drop 46).take 4 = ((u ++ c' :: v).drop 46).take 4
  rcases hp with hp | hp
  · rw [List.drop_append_eq_append_drop, List.drop_append_eq_append_drop]
    have e : 46 - u.length = (45 - u.length) + 1 := by omega
    rw [e, List.drop_succ_cons, List.drop_succ_cons]
  · rw [List.drop_append_eq_append_drop, List.drop_append_eq_append_drop]
    have e : 46 - u.length = 0 := by omega
    rw [e, List.drop_zero, List.take_append_eq_append_take, List.take_append_eq_append_take]
    have e2 : 4 - (u.drop 46).length = 0 := by
      rw [List.length_drop]
      omega
    rw [e2, List.take_zero, List.take_zero]

/-- Mutating one character outside the checksum field mutates exactly one
position of the excised data, with identical surroundings. -/
theorem excise_mut (u v : Str) (hp : u.length ≤ 45 ∨ 50 ≤ u.length) :
    ∃ w z : Str, ∀ x : Nat,
      (u ++ x :: v).take 46 ++ (u ++ x :: v).drop 50 = w ++ x :: z := by
  rcases hp with hp | hp
  · refine ⟨u, v.take (45 - u.length) ++ v.drop (49 - u.length), fun x => ?_⟩
    rw [List.take_append_eq_append_take, List.drop_append_eq_append_drop]
    rw [List.take_of_length_le (by omega), List.drop_eq_nil_of_le (by omega)]
    have e1 : 46 - u.length = (45 - u.length) + 1 := by omega
    have e2 : 50 - u.length = (49 - u.length) + 1 := by omega
    rw [e1, e2, List.take_succ_cons, List.drop_succ_cons, List.nil_append,
      List.append_assoc]
    rfl
  · refine ⟨u.take 46 ++ u.drop 50, v, fun x => ?_⟩
    rw [List.take_append_eq_append_take, List.drop_append_eq_append_drop]
    have e1 : 46 - u.length = 0 := by omega
    have e2 : 50 - u.length = 0 := by omega
    rw [e1, e2, List.take_zero, List.drop_zero, List.append_nil, List.append_assoc]

/-- Replacing the 4-character checksum field keeps the excised data and
puts the new text in the field's column span. -/
theorem field_replace_decomp (l g : Str) (hlen : 50 ≤ l.length) (hg : g.length = 4) :
    sliceAB (l.take 46 ++ g ++ l.drop 50) 47 50 = g ∧
      (l.take 46 ++ g ++ l.drop 50).take 46 ++ (l.take 46 ++ g ++ l.drop 50).drop 50 =
        l.take 46 ++ l.drop 50 := by
  have h46 : (l.take 46).length = 46 := by
    rw [List.length_take]
    omega
  constructor
  · show (((l.take 46 ++ g ++ l.drop 50)).drop 46).take 4 = g
    rw [List.append_assoc, List.drop_append_eq_append_drop,
      List.drop_eq_nil_of_le (by omega), List.nil_append, h46, Nat.sub_self,
      List.drop_zero, List.take_append_eq_append_take, List.take_of_length_le (by omega),
      hg, Nat.sub_self, List.take_zero, List.append_nil]
  · rw [List.append_assoc]
    rw [List.take_append_eq_append_take, List.take_of_length_le (by omega), h46,
      Nat.sub_self, List.take_zero, List.append_nil]
    rw [List.drop_append_eq_append_drop, List.drop_eq_nil_of_le (by omega), h46,
      List.nil_append, List.drop_append_eq_append_drop, hg]
    have e : 50 - 46 - 4 = 0 := by omega
    rw [e, List.drop_zero, List.drop_eq_nil_of_le (by omega), List.nil_append]

-- ===============================
-- Claim C6
-- ===============================

/-- An ASCII hexadecimal digit character. -/
def isHexDigitChar (c : Nat) : Bool :=
  (48 ≤ c && c ≤ 57) || (65 ≤ c && c ≤ 70) || (97 ≤ c && c ≤ 102)

/-- The verification hex rendering of a line's excised data, in
prefix-suffix form. -/
theorem crc16Hex4ForLine_excise (l : Str) :
    crc16Hex4ForLine l 47 50 =
      hex4 (crc16_ibm_arc (encLatin1 (l.take 46 ++ l.drop 50))) := by
  show hex4 (crc16_ibm_arc (encLatin1 (sliceAB l 1 46 ++ sliceAB l 51 l.length))) = _
  rw [excise3_take_drop]

/-- Distinct-byte mutation of the excised data changes the rendered
checksum. -/
theorem hex4_crc_mut {w z : Str} {c c' : Nat}
    (hc : c < 256) (hc' : c' < 256) (hne : c ≠ c') :
    hex4 (crc16_ibm_arc (encLatin1 (w ++ c :: z))) ≠
      hex4 (crc16_ibm_arc (encLatin1 (w ++ c' :: z))) := by
  intro h
  have hmask : ∀ s : Str, crc16_ibm_arc (encLatin1 s) < 65536 := by
    intro s
    unfold crc16_ibm_arc
    have := Nat.and_le_right (n := crcOuter 0 (encLatin1 s)) (m := 0xFFFF)
    omega
  have hcrc := hex4_inj (hmask _) (hmask _) h
  unfold crc16_ibm_arc at hcrc
  have henc : ∀ (x : Nat), encLatin1 (w ++ x :: z) = encLatin1 w ++ encChar x :: encLatin1 z := by
    intro x
    unfold encLatin1
    rw [List.map_append, List.map_cons]
  rw [henc, henc] at hcrc
  have hlt1 : crcOuter 0 (encLatin1 w ++ encChar c :: encLatin1 z) < 65536 := by
    apply crcOuter_lt (by norm_num)
    intro x hx
    rcases List.mem_append.mp hx with h1 | h1
    · exact encLatin1_bytes_lt w x h1
    · rcases List.mem_cons.mp h1 with h2 | h2
      · subst h2
        unfold encChar
        split <;> omega
      · exact encLatin1_bytes_lt z x h2
  have hlt2 : crcOuter 0 (encLatin1 w ++ encChar c' :: encLatin1 z) < 65536 := by
    apply crcOuter_lt (by norm_num)
    intro x hx
    rcases List.mem_append.mp hx with h1 | h1
    · exact encLatin1_bytes_lt w x h1
    · rcases List.mem_cons.mp h1 with h2 | h2
      · subst h2
        unfold encChar
        split <;> omega
      · exact encLatin1_bytes_lt z x h2
  rw [mask16_eq_self hlt1, mask16_eq_self hlt2] at hcrc
  refine crcOuter_mutation
    (encLatin1_bytes_lt w) (encLatin1_bytes_lt z) ?_ ?_ ?_ hcrc
  · rw [encChar_eq_self hc]; omega
  · rw [encChar_eq_self hc']; omega
  · rw [encChar_eq_self hc, encChar_eq_self hc']
    exact hne

/-- C6 (amended): for an official type-3 line verifying true, mutating
any single character outside the checksum field (columns 47-50) to a
different byte flips the verification to false; replacing the checksum
field by a 4-character hex string whose uppercase form differs flips it
to false, while one with the same uppercase form (e.g. a lowercased copy)
keeps it true; and the unmutated line deterministically verifies true. -/
theorem claim_C6_mutation_flips_crc :
    (∀ (u v : Str) (c c' : Nat) (r : Registro3),
        parse_registro3_oficial (u ++ c :: v) = some r → r.crc_ok = some true →
        (u.length ≤ 45 ∨ 50 ≤ u.length) → c < 256 → c' < 256 → c ≠ c' →
        crcOk3 (u ++ c' :: v) = false) ∧
    (∀ (line g : Str) (r : Registro3),
        parse_registro3_oficial line = some r → r.crc_ok = some true →
        g.length = 4 → g.all isHexDigitChar = true →
        pyUpper g ≠ pyUpper (sliceAB line 47 50) →
        crcOk3 (line.take 46 ++ g ++ line.drop 50) = false) ∧
    (∀ (line g : Str) (r : Registro3),
        parse_registro3_oficial line = some r → r.crc_ok = some true →
        g.length = 4 →
        pyUpper g = pyUpper (sliceAB line 47 50) →
        crcOk3 (line.take 46 ++ g ++ line.drop 50) = true) ∧
    (∀ (line : Str) (r : Registro3),
        parse_registro3_oficial line = some r → r.crc_ok = some true →
        crcOk3 line = true) := by
  have hok3 : ∀ (line : Str) (r : Registro3),
      parse_registro3_oficial line = some r → r.crc_ok = some true →
      crcOk3 line = true := by
    intro line r hparse htrue
    obtain ⟨-, -, -, -, -, hok, -⟩ := parse3_oficial_elim hparse
    exact Option.some.inj (hok.symm.trans htrue)
  have hfield : ∀ (line : Str) (r : Registro3),
      parse_registro3_oficial line = some r → r.crc_ok = some true →
      pyUpper (sliceAB line 47 50) =
        hex4 (crc16_ibm_arc (encLatin1 (line.take 46 ++ line.drop 50))) := by
    intro line r hparse htrue
    have h1 := hok3 line r hparse htrue
    unfold crcOk3 at h1
    have h2 := of_decide_eq_true h1
    rw [crc16Hex4ForLine_excise] at h2
    exact h2
  refine ⟨?_, ?_, ?_, hok3⟩
  · intro u v c c' r hparse htrue hp hc hc' hne
    obtain ⟨w, z, hwz⟩ := excise_mut u v hp
    have hf := hfield (u ++ c :: v) r hparse htrue
    rw [hwz c] at hf
    unfold crcOk3
    apply decide_eq_false
    intro heq
    rw [crc16Hex4ForLine_excise, hwz c'] at heq
    rw [← field_slice_mut u v c c' hp] at heq
    exact hex4_crc_mut hc hc' hne (hf.symm.trans heq)
  · intro line g r hparse htrue hg4 _ hne
    obtain ⟨hlen, -, -, -, -, -, -⟩ := parse3_oficial_elim hparse
    obtain ⟨hfld, hexc⟩ := field_replace_decomp line g hlen hg4
    have hf := hfield line r hparse htrue
    unfold crcOk3
    apply decide_eq_false
    intro heq
    rw [crc16Hex4ForLine_excise, hexc, hfld] at heq
    exact hne (heq.trans hf.symm)
  · intro line g r hparse htrue hg4 hsame
    obtain ⟨hlen, -, -, -, -, -, -⟩ := parse3_oficial_elim hparse
    obtain ⟨hfld, hexc⟩ := field_replace_decomp line g hlen hg4
    have hf := hfield line r hparse htrue
    unfold crcOk3
    apply decide_eq_true
    rw [crc16Hex4ForLine_excise, hexc, hfld, hsame]
    exact hf

/-- The lowercase spelling of `lineTrue`'s checksum field `FCEB`. -/
def lowerFceb : Str := [102, 99, 101, 98]

/-- `lineTrue` with only its checksum field lowercased. -/
def lineLower : Str := lineTrue.take 46 ++ lowerFceb ++ lineTrue.drop 50

/-- The record `lineLower` parses to. -/
def wReg6c : Registro3 :=
  (parse_registro3_oficial lineLower).getD
    { nsr := 0, tipo := [], dh_marcacao := [], cpf := [],
      crc16 := none, crc_ok := none, formato := .oficial }

set_option maxRecDepth 1000000 in
/-- Counterexample to C6 as stated: `lineTrue` verifies true, and
changing only its checksum field to the different 4-hex-digit string
`fceb` still verifies true (the comparison is case-insensitive), instead
of flipping to false. -/
theorem claim_C6_counterexample :
    parse_registro3_oficial lineTrue = some wReg1w ∧ wReg1w.crc_ok = some true ∧
      lowerFceb ≠ sliceAB lineTrue 47 50 ∧ lowerFceb.length = 4 ∧
      lowerFceb.all isHexDigitChar = true ∧
      parse_registro3_oficial lineLower = some wReg6c ∧ wReg6c.crc_ok = some true :=
  ⟨by decide, by decide, by decide, by decide, by decide, by decide, by decide⟩

/-- The first 20 characters of `lineTrue`. -/
def u6 : Str := lineTrue.take 20

/-- The tail of `lineTrue` after position 20. -/
def v6 : Str := lineTrue.drop 21

set_option maxRecDepth 1000000 in
/-- Witness for the amended C6 at `lineTrue`: mutating the character at
position 20 (inside the timestamp span, outside the checksum field) to a
different byte flips verification false; replacing the field by `0001`
flips it false; replacing it by its lowercase spelling keeps it true; the
original verifies true. -/
theorem claim_C6_mutation_flips_crc_witness :
    crcOk3 (u6 ++ 88 :: v6) = false ∧
      crcOk3 (lineTrue.take 46 ++ [48, 48, 48, 49] ++ lineTrue.drop 50) = false ∧
      crcOk3 lineLower = true ∧
      crcOk3 lineTrue = true :=
  ⟨claim_C6_mutation_flips_crc.1 u6 v6 84 88 wReg1w (by decide) (by decide)
      (Or.inl (by decide)) (by decide) (by decide) (by decide),
   claim_C6_mutation_flips_crc.2.1 lineTrue [48, 48, 48, 49] wReg1w (by decide)
      (by decide) (by decide) (by decide) (by decide),
   claim_C6_mutation_flips_crc.2.2.1 lineTrue lowerFceb wReg1w (by decide)
      (by decide) (by decide) (by decide),
   claim_C6_mutation_flips_crc.2.2.2 lineTrue wReg1w (by decide) (by decide)⟩
